import Mathlib

/-!
Verification of the OpenFlow real-time dictation core.

This file gives a shallow embedding, in Lean 4, of the parts of the
`src-tauri` Rust sources that the verified properties speak about:

* `asr/engine.rs` — the bounded sample ring (`push_samples`,
  `truncate_if_needed`, `take_samples`) and `finalize_samples`;
* `core/pipeline.rs` — `VadTrimState` accounting and
  `compute_trim_range`;
* `core/hotkeys.rs` — the evdev shortcut parser (`parse_hotkey`,
  `parse_key`) and the raw-input event loop body (`run_loop`);
* `output/injector.rs` — the clipboard save / paste / restore protocol
  (`paste_text`);
* `models/manager.rs` — the built-in catalog merge
  (`register_defaults`);
* `core/settings.rs` — `migrate_frontend_settings` and the persisted
  settings round trip.

Machine integers (`usize`, `u64`, `u32`) are modelled as `Nat`;
`saturating_sub` is `Nat` truncated subtraction, and
`saturating_add` is plain `Nat` addition (the saturation point of the
source types is unreachable at the sizes involved).  `f32` audio
samples are an opaque type parameter `α`: none of the embedded
functions inspects sample values.  Rust `&str` operations that the
embedded code uses (`split('+')`, `trim`, `to_ascii_uppercase`,
`replace(' ', "")`) are modelled explicitly on `List Char` so that the
definitions evaluate inside the kernel.
-/

/-! ### Rust string primitives on `List Char` -/

/-- Rust `char::to_ascii_uppercase`: maps `'a'..='z'` to `'A'..='Z'`,
leaves every other character unchanged. -/
def toAsciiUpper (c : Char) : Char :=
  if 'a' ≤ c ∧ c ≤ 'z' then Char.ofNat (c.toNat - 32) else c

/-- Rust `str::trim`: drop leading and trailing whitespace. -/
def rustTrim (s : List Char) : List Char :=
  ((s.dropWhile Char.isWhitespace).reverse.dropWhile Char.isWhitespace).reverse

/-- Rust `str::split('+')`: split into the list of `'+'`-separated
segments (an empty input yields one empty segment, as in Rust). -/
def splitPlus : List Char → List (List Char)
  | [] => [[]]
  | c :: rest =>
    if c = '+' then [] :: splitPlus rest
    else
      match splitPlus rest with
      | [] => [[c]]
      | seg :: segs => (c :: seg) :: segs

/-- Rust `str::parse::<u8>()`: an optional leading `'+'`, then one or
more decimal digits, value at most `255`. -/
def parseU8 (s : List Char) : Option Nat :=
  let digits := match s with
    | '+' :: rest => rest
    | _ => s
  if digits.isEmpty then none
  else if digits.all Char.isDigit then
    let n := digits.foldl (fun acc c => acc * 10 + (c.toNat - 48)) 0
    if n ≤ 255 then some n else none
  else none

/-! ### `asr/engine.rs` — the bounded sample ring

`AsrEngine.buffer` is a `Mutex<Vec<f32>>`; we model the vector as a
`List α` and each engine method as a pure function of the buffer. -/

/-- `truncate_if_needed`'s capacity: `MAX_SAMPLES = 16_000 * 120`
(120 s of 16 kHz audio), a constant in the source. -/
def MAX_SAMPLES : Nat := 16000 * 120

/-- `AsrEngine::truncate_if_needed`: when the buffer length exceeds
`MAX_SAMPLES`, drain the overflow from the head and return the number
of samples dropped; otherwise return `0`. -/
def truncate_if_needed (buffer : List α) : List α × Nat :=
  if buffer.length > MAX_SAMPLES then
    let overflow := buffer.length - MAX_SAMPLES
    (buffer.drop overflow, overflow)
  else (buffer, 0)

/-- `AsrEngine::push_samples`: append, then truncate if needed.
Returns the new buffer and the dropped-sample count. -/
def push_samples (buffer samples : List α) : List α × Nat :=
  truncate_if_needed (buffer ++ samples)

/-- `AsrEngine::take_samples`: `std::mem::take` — return the whole
buffer contents and leave the buffer empty.  First component is the
returned vector, second the buffer afterwards. -/
def take_samples (buffer : List α) : List α × List α :=
  (buffer, [])

/-- The resident-buffer states reached by a sequence of
`push_samples` calls starting from a given buffer. -/
def push_states (init : List α) (pushes : List (List α)) : List (List α) :=
  List.scanl (fun b s => (push_samples b s).1) init pushes

/-- `AsrBackend` (`asr/engine.rs`). -/
inductive AsrBackend
  | whisperOnnx
  | whisperCt2
  | parakeet
deriving DecidableEq

/-- `AsrConfig` (`asr/engine.rs`).  `PathBuf` is modelled as `String`,
`i32` thread counts as `Int`. -/
structure AsrConfig where
  backend : AsrBackend
  language : String
  auto_language_detect : Bool
  model_dir : Option String
  provider : String
  num_threads : Option Int
  ct2_device : String
  ct2_compute_type : String
deriving DecidableEq

/-- `AsrConfig::default()`. -/
def AsrConfig.default : AsrConfig :=
  { backend := .parakeet
    language := "auto"
    auto_language_detect := true
    model_dir := none
    provider := "cpu"
    num_threads := none
    ct2_device := "cpu"
    ct2_compute_type := "int8" }

/-- The engine's error taxonomy.  The source raises these as `anyhow`
errors; each constructor corresponds to one `bail!`/`anyhow!` site:
`sampleRateUnsupported` ↔ "ASR requires 16kHz audio (got …Hz)",
`modelNotInstalled` ↔ "ASR model not installed",
`ct2NotSherpa` ↔ "CT2 ASR is not handled by sherpa",
`recognizerRuntime` ↔ an error propagated from the recognizer
library. -/
inductive AsrError
  | sampleRateUnsupported (rate : Nat)
  | modelNotInstalled
  | ct2NotSherpa
  | recognizerRuntime (msg : String)
deriving DecidableEq

/-- `RecognitionResult` (`asr/engine.rs`).  The `latency` field is a
wall-clock measurement and is not modelled. -/
structure RecognitionResult where
  text : String
deriving DecidableEq

/-- The opaque sherpa recognizer capability (`sherpa_rs`), out of
scope of the embedded code: `load` models
`sherpa::load_whisper` / `sherpa::load_parakeet` (which may fail) and
`transcribe` models `Recognizer::transcribe` (which returns text). -/
structure SherpaOracle (α : Type) where
  load : Except String Unit
  transcribe : List α → String

/-- The opaque CTranslate2 recognizer capability (`ct2rs`): `load`
models `ct2_whisper::load_whisper` and `transcribe` models
`ct2_whisper::transcribe` (which may fail at runtime). -/
structure Ct2Oracle (α : Type) where
  load : Except String Unit
  transcribe : List α → Except String String

/-- `AsrEngine::transcribe_with_sherpa`: reject non-16 kHz input,
require a model directory, lazily construct the recognizer (modelled
by `oracle.load`), then transcribe.  The `WhisperCt2` backend is not
handled by sherpa. -/
def transcribe_with_sherpa (cfg : AsrConfig) (oracle : SherpaOracle α)
    (sample_rate : Nat) (samples : List α) : Except AsrError String :=
  if sample_rate ≠ 16000 then .error (.sampleRateUnsupported sample_rate)
  else match cfg.model_dir with
    | none => .error .modelNotInstalled
    | some _ =>
      match cfg.backend with
      | .whisperCt2 => .error .ct2NotSherpa
      | _ =>
        match oracle.load with
        | .error e => .error (.recognizerRuntime e)
        | .ok _ => .ok (oracle.transcribe samples)

/-- `AsrEngine::transcribe_with_ct2`: reject non-16 kHz input, require
a model directory, lazily construct the recognizer, then transcribe
(the CT2 transcription itself may fail). -/
def transcribe_with_ct2 (cfg : AsrConfig) (oracle : Ct2Oracle α)
    (sample_rate : Nat) (samples : List α) : Except AsrError String :=
  if sample_rate ≠ 16000 then .error (.sampleRateUnsupported sample_rate)
  else match cfg.model_dir with
    | none => .error .modelNotInstalled
    | some _ =>
      match oracle.load with
      | .error e => .error (.recognizerRuntime e)
      | .ok _ =>
        match oracle.transcribe samples with
        | .error e => .error (.recognizerRuntime e)
        | .ok text => .ok text

/-- `AsrEngine::finalize_samples`: empty input short-circuits to
`Ok(None)`; otherwise dispatch on the configured backend and wrap the
recognized text.  (The measured latency is wall-clock and not
modelled.) -/
def finalize_samples (cfg : AsrConfig) (sherpa : SherpaOracle α)
    (ct2 : Ct2Oracle α) (sample_rate : Nat) (samples : List α) :
    Except AsrError (Option RecognitionResult) :=
  if samples.isEmpty then .ok none
  else
    let result := match cfg.backend with
      | .whisperCt2 => transcribe_with_ct2 cfg ct2 sample_rate samples
      | _ => transcribe_with_sherpa cfg sherpa sample_rate samples
    result.map (fun text => some { text := text })

/-! ### `core/pipeline.rs` — VAD trim accounting -/

/-- `VadDecision` (`vad/engine.rs`). -/
inductive VadDecision
  | active
  | inactive
deriving DecidableEq

/-- `VadTrimState` (`core/pipeline.rs`): running counters, in absolute
sample coordinates from session start. -/
structure VadTrimState where
  total_samples : Nat := 0
  buffer_start : Nat := 0
  first_active : Option Nat := none
  last_active : Option Nat := none
  active_samples : Nat := 0
deriving DecidableEq

/-- `VadTrimState::default()` / `reset`. -/
def VadTrimState.reset : VadTrimState := {}

/-- `VadTrimState::record`: extend `total_samples` by the frame, and
on an `Active` decision set `first_active` (if unset), advance
`last_active` to the frame end and add the frame to
`active_samples`. -/
def VadTrimState.record (st : VadTrimState) (decision : VadDecision)
    (frame_samples : Nat) : VadTrimState :=
  let start := st.total_samples
  let stop := start + frame_samples
  let st' :=
    match decision with
    | .active =>
      { st with
        first_active := if st.first_active.isNone then some start else st.first_active
        last_active := some stop
        active_samples := st.active_samples + frame_samples }
    | .inactive => st
  { st' with total_samples := stop }

/-- `VadTrimState::note_buffer_drop`: shift `buffer_start` by the
number of samples evicted from the ring. -/
def VadTrimState.note_buffer_drop (st : VadTrimState) (dropped : Nat) : VadTrimState :=
  if dropped = 0 then st
  else { st with buffer_start := st.buffer_start + dropped }

/-- One operation of the trim accountant during a session: a VAD
frame observation (all frames of a session share one frame size) or a
ring-overflow notification. -/
inductive TrimOp
  | record (decision : VadDecision)
  | noteDrop (dropped : Nat)

/-- Apply one `TrimOp` with the session's constant frame size. -/
def applyTrimOp (frame_samples : Nat) (st : VadTrimState) : TrimOp → VadTrimState
  | .record decision => st.record decision frame_samples
  | .noteDrop dropped => st.note_buffer_drop dropped

/-- Run a session's trim operations from the reset state. -/
def runTrimOps (frame_samples : Nat) (ops : List TrimOp) : VadTrimState :=
  ops.foldl (applyTrimOp frame_samples) VadTrimState.reset

/-- `NoOutputReason` (`core/pipeline.rs`). -/
structure NoOutputReason where
  code : String
  message : String
deriving DecidableEq

/-- The VAD trim constants of `core/pipeline.rs` (all in ms). -/
def VAD_MIN_SPEECH_MS : Nat := 350
def VAD_PRE_ROLL_MS : Nat := 200
def VAD_POST_ROLL_MS : Nat := 500
def VAD_MAX_TRAILING_SILENCE_MS : Nat := 600

/-- `SpeechPipelineInner::compute_trim_range`: from the trim counters
and the drained ring length, compute the window (relative to the ring)
to hand to the recognizer, or a structured reason to abort. -/
def compute_trim_range (sample_rate buffer_len : Nat) (trim : VadTrimState) :
    Except NoOutputReason (Nat × Nat) :=
  if buffer_len = 0 then
    .error { code := "no-audio", message := "No audio captured; skipping ASR" }
  else
    let min_samples := VAD_MIN_SPEECH_MS * sample_rate / 1000
    if trim.first_active.isNone ∨ trim.active_samples < min_samples then
      .error { code := "no-speech", message := "No speech detected; skipping ASR" }
    else
      let first := trim.first_active.getD 0
      let last := trim.last_active.getD first
      let pre_roll := VAD_PRE_ROLL_MS * sample_rate / 1000
      let post_roll := VAD_POST_ROLL_MS * sample_rate / 1000
      let keep_tail := VAD_MAX_TRAILING_SILENCE_MS * sample_rate / 1000
      let start_abs := first - pre_roll
      let end_abs := last + post_roll
      let buffer_start := trim.buffer_start
      let buffer_end := buffer_start + buffer_len
      let trailing_silence := buffer_end - last
      let end_abs := if trailing_silence ≤ keep_tail then buffer_end else end_abs
      let start := max start_abs buffer_start
      let stop := min end_abs buffer_end
      if stop ≤ start then
        .error { code := "trim-rejected", message := "Speech trim rejected; skipping ASR" }
      else
        .ok (start - buffer_start, stop - buffer_start)

/-- Trim window as the specification states it (claim C1, spec §4.8
step 2), in absolute sample coordinates: `start = max(first_active −
200 ms, buffer_start)`; `end = min(last_active + 500 ms, buffer_end)`
except that a trailing silence of at most 600 ms extends `end` to the
buffer end; empty buffer → `no-audio`; no speech or fewer than 350 ms
of active samples → `no-speech`; `end ≤ start` → `trim-rejected`. -/
def trim_window_spec (sample_rate buffer_len : Nat) (trim : VadTrimState) :
    Except NoOutputReason (Nat × Nat) :=
  if buffer_len = 0 then
    .error { code := "no-audio", message := "No audio captured; skipping ASR" }
  else
    match trim.first_active with
    | none =>
      .error { code := "no-speech", message := "No speech detected; skipping ASR" }
    | some first =>
      if trim.active_samples < VAD_MIN_SPEECH_MS * sample_rate / 1000 then
        .error { code := "no-speech", message := "No speech detected; skipping ASR" }
      else
        let last := trim.last_active.getD first
        let buffer_end := trim.buffer_start + buffer_len
        let start := max (first - VAD_PRE_ROLL_MS * sample_rate / 1000) trim.buffer_start
        let stop :=
          if buffer_end - last ≤ VAD_MAX_TRAILING_SILENCE_MS * sample_rate / 1000 then
            buffer_end
          else
            min (last + VAD_POST_ROLL_MS * sample_rate / 1000) buffer_end
        if stop ≤ start then
          .error { code := "trim-rejected", message := "Speech trim rejected; skipping ASR" }
        else
          .ok (start, stop)

/-! ### `core/hotkeys.rs` — evdev shortcut grammar

The `evdev::Key` constants the parser can produce. -/

inductive Key
  | KEY_SPACE | KEY_ENTER | KEY_ESC | KEY_UP | KEY_DOWN | KEY_LEFT | KEY_RIGHT
  | KEY_TAB | KEY_BACKSPACE
  | KEY_RIGHTALT | KEY_LEFTALT | KEY_RIGHTCTRL | KEY_LEFTCTRL
  | KEY_RIGHTSHIFT | KEY_LEFTSHIFT | KEY_RIGHTMETA | KEY_LEFTMETA
  | KEY_SCROLLLOCK | KEY_PAUSE | KEY_CAPSLOCK | KEY_NUMLOCK
  | KEY_INSERT | KEY_HOME | KEY_END | KEY_PAGEUP | KEY_PAGEDOWN | KEY_DELETE
  | KEY_F1 | KEY_F2 | KEY_F3 | KEY_F4 | KEY_F5 | KEY_F6 | KEY_F7 | KEY_F8
  | KEY_F9 | KEY_F10 | KEY_F11 | KEY_F12 | KEY_F13 | KEY_F14 | KEY_F15
  | KEY_F16 | KEY_F17 | KEY_F18 | KEY_F19 | KEY_F20 | KEY_F21 | KEY_F22
  | KEY_F23 | KEY_F24
  | KEY_A | KEY_B | KEY_C | KEY_D | KEY_E | KEY_F | KEY_G | KEY_H | KEY_I
  | KEY_J | KEY_K | KEY_L | KEY_M | KEY_N | KEY_O | KEY_P | KEY_Q | KEY_R
  | KEY_S | KEY_T | KEY_U | KEY_V | KEY_W | KEY_X | KEY_Y | KEY_Z
  | KEY_0 | KEY_1 | KEY_2 | KEY_3 | KEY_4 | KEY_5 | KEY_6 | KEY_7 | KEY_8
  | KEY_9
deriving DecidableEq

/-- `Modifiers` (`core/hotkeys.rs`). -/
structure Modifiers where
  ctrl : Bool
  alt : Bool
  shift : Bool
  meta : Bool
deriving DecidableEq

/-- `HotkeySpec` (`core/hotkeys.rs`). -/
structure HotkeySpec where
  key : Key
  modifiers : Modifiers
deriving DecidableEq

/-- The function-key table inside `parse_key` (`1..=24`, other values
fall through). -/
def fkeyOfNat : Nat → Option Key
  | 1 => some .KEY_F1 | 2 => some .KEY_F2 | 3 => some .KEY_F3 | 4 => some .KEY_F4
  | 5 => some .KEY_F5 | 6 => some .KEY_F6 | 7 => some .KEY_F7 | 8 => some .KEY_F8
  | 9 => some .KEY_F9 | 10 => some .KEY_F10 | 11 => some .KEY_F11 | 12 => some .KEY_F12
  | 13 => some .KEY_F13 | 14 => some .KEY_F14 | 15 => some .KEY_F15 | 16 => some .KEY_F16
  | 17 => some .KEY_F17 | 18 => some .KEY_F18 | 19 => some .KEY_F19 | 20 => some .KEY_F20
  | 21 => some .KEY_F21 | 22 => some .KEY_F22 | 23 => some .KEY_F23 | 24 => some .KEY_F24
  | _ => none

/-- The single-character letter/digit table at the end of
`parse_key`. -/
def letterOrDigitKey : List Char → Option Key
  | ['A'] => some .KEY_A | ['B'] => some .KEY_B | ['C'] => some .KEY_C
  | ['D'] => some .KEY_D | ['E'] => some .KEY_E | ['F'] => some .KEY_F
  | ['G'] => some .KEY_G | ['H'] => some .KEY_H | ['I'] => some .KEY_I
  | ['J'] => some .KEY_J | ['K'] => some .KEY_K | ['L'] => some .KEY_L
  | ['M'] => some .KEY_M | ['N'] => some .KEY_N | ['O'] => some .KEY_O
  | ['P'] => some .KEY_P | ['Q'] => some .KEY_Q | ['R'] => some .KEY_R
  | ['S'] => some .KEY_S | ['T'] => some .KEY_T | ['U'] => some .KEY_U
  | ['V'] => some .KEY_V | ['W'] => some .KEY_W | ['X'] => some .KEY_X
  | ['Y'] => some .KEY_Y | ['Z'] => some .KEY_Z
  | ['0'] => some .KEY_0 | ['1'] => some .KEY_1 | ['2'] => some .KEY_2
  | ['3'] => some .KEY_3 | ['4'] => some .KEY_4 | ['5'] => some .KEY_5
  | ['6'] => some .KEY_6 | ['7'] => some .KEY_7 | ['8'] => some .KEY_8
  | ['9'] => some .KEY_9
  | _ => none

/-- The named-key match at the head of `parse_key`, on the uppercased,
space-stripped segment. -/
def namedKey (u : List Char) : Option Key :=
  if u = "SPACE".toList then some .KEY_SPACE
  else if u = "ENTER".toList ∨ u = "RETURN".toList then some .KEY_ENTER
  else if u = "ESC".toList ∨ u = "ESCAPE".toList then some .KEY_ESC
  else if u = "ARROWUP".toList ∨ u = "UP".toList then some .KEY_UP
  else if u = "ARROWDOWN".toList ∨ u = "DOWN".toList then some .KEY_DOWN
  else if u = "ARROWLEFT".toList ∨ u = "LEFT".toList then some .KEY_LEFT
  else if u = "ARROWRIGHT".toList ∨ u = "RIGHT".toList then some .KEY_RIGHT
  else if u = "TAB".toList then some .KEY_TAB
  else if u = "BACKSPACE".toList then some .KEY_BACKSPACE
  else if u = "RIGHTALT".toList ∨ u = "ALTRIGHT".toList then some .KEY_RIGHTALT
  else if u = "LEFTALT".toList ∨ u = "ALTLEFT".toList then some .KEY_LEFTALT
  else if u = "RIGHTCTRL".toList ∨ u = "CTRLRIGHT".toList ∨ u = "CONTROLRIGHT".toList then some .KEY_RIGHTCTRL
  else if u = "LEFTCTRL".toList ∨ u = "CTRLLEFT".toList ∨ u = "CONTROLLEFT".toList then some .KEY_LEFTCTRL
  else if u = "RIGHTSHIFT".toList ∨ u = "SHIFTRIGHT".toList then some .KEY_RIGHTSHIFT
  else if u = "LEFTSHIFT".toList ∨ u = "SHIFTLEFT".toList then some .KEY_LEFTSHIFT
  else if u = "RIGHTMETA".toList ∨ u = "METARIGHT".toList ∨ u = "SUPERRIGHT".toList then some .KEY_RIGHTMETA
  else if u = "LEFTMETA".toList ∨ u = "METALEFT".toList ∨ u = "SUPERLEFT".toList then some .KEY_LEFTMETA
  else if u = "SCROLLLOCK".toList then some .KEY_SCROLLLOCK
  else if u = "PAUSE".toList then some .KEY_PAUSE
  else if u = "CAPSLOCK".toList then some .KEY_CAPSLOCK
  else if u = "NUMLOCK".toList then some .KEY_NUMLOCK
  else if u = "INSERT".toList then some .KEY_INSERT
  else if u = "HOME".toList then some .KEY_HOME
  else if u = "END".toList then some .KEY_END
  else if u = "PAGEUP".toList then some .KEY_PAGEUP
  else if u = "PAGEDOWN".toList then some .KEY_PAGEDOWN
  else if u = "DELETE".toList then some .KEY_DELETE
  else none

/-- `linux_evdev::parse_key` on the uppercased, space-stripped
segment: named keys, then `F<n>` function keys, then single
letters/digits.  (The source reports failures as `anyhow` errors with
a message; here failures are `none`.) -/
def matchKey (u : List Char) : Option Key :=
  match namedKey u with
  | some k => some k
  | none =>
    let fkey : Option Key :=
      match u with
      | 'F' :: rest =>
        match parseU8 rest with
        | some n => fkeyOfNat n
        | none => none
      | _ => none
    match fkey with
    | some k => some k
    | none =>
      if u.length = 1 then letterOrDigitKey u else none

/-- `linux_evdev::parse_key`: trim, reject empty, uppercase, strip
interior spaces, then match. -/
def parse_key (key : List Char) : Option Key :=
  let trimmed := rustTrim key
  if trimmed.isEmpty then none
  else matchKey ((trimmed.map toAsciiUpper).filter (fun c => c ≠ ' '))

/-- One step of the modifier-segment loop of
`linux_evdev::parse_hotkey` (and, identically, of
`linux_x11::parse_hotkey`): the match is on the exact, case-sensitive
spellings; any other segment leaves the modifiers unchanged. -/
def apply_modifier (m : Modifiers) (seg : List Char) : Modifiers :=
  if seg = "Ctrl".toList ∨ seg = "Control".toList then { m with ctrl := true }
  else if seg = "Alt".toList then { m with alt := true }
  else if seg = "Shift".toList then { m with shift := true }
  else if seg = "Meta".toList ∨ seg = "Super".toList ∨ seg = "Command".toList ∨
      seg = "Logo".toList then { m with meta := true }
  else m

/-- Split a shortcut string into its trimmed, non-empty
`'+'`-separated segments (shared by both backends'
`parse_hotkey`). -/
def hotkeySegments (input : List Char) : List (List Char) :=
  ((splitPlus input).map rustTrim).filter (fun p => ¬ p.isEmpty)

/-- `linux_evdev::parse_hotkey`: all segments but the last are
modifier segments, the last is the key. -/
def parse_hotkey (input : List Char) : Option HotkeySpec :=
  let parts := hotkeySegments input
  match parts.getLast? with
  | none => none
  | some key_str =>
    let modifiers := parts.dropLast.foldl apply_modifier ⟨false, false, false, false⟩
    (parse_key key_str).map (fun k => { key := k, modifiers := modifiers })

/-- `linux_x11::parse_hotkey`: same grammar, but the key segment is
returned unparsed (the X11 backend resolves it to a keycode via the
display connection). -/
def x11_parse_hotkey (input : List Char) : Option (Modifiers × List Char) :=
  let parts := hotkeySegments input
  match parts.getLast? with
  | none => none
  | some key_str =>
    some (parts.dropLast.foldl apply_modifier ⟨false, false, false, false⟩, key_str)

/-! ### `core/hotkeys.rs` — raw-input loop state (`run_loop`) -/

/-- `HotkeyState` edges emitted to the orchestrator. -/
inductive HotkeyState
  | pressed
  | released
deriving DecidableEq

/-- The mutable state of `linux_evdev::run_loop`: the four held
modifier key sets and the trigger latch. -/
structure LoopState where
  held_ctrl : Finset Key
  held_alt : Finset Key
  held_shift : Finset Key
  held_meta : Finset Key
  is_pressed : Bool
deriving DecidableEq

/-- `linux_evdev::update_modifier_state`: a value-1 event inserts the
key into its held set, a value-0 event removes it; any other value
(key repeat) leaves the sets unchanged.  Non-modifier keys change
nothing. -/
def update_modifier_state (key : Key) (value : Int) (st : LoopState) : LoopState :=
  let is_down := value = 1
  let is_up := value = 0
  if key = .KEY_LEFTCTRL ∨ key = .KEY_RIGHTCTRL then
    if is_down then { st with held_ctrl := insert key st.held_ctrl }
    else if is_up then { st with held_ctrl := st.held_ctrl.erase key }
    else st
  else if key = .KEY_LEFTALT ∨ key = .KEY_RIGHTALT then
    if is_down then { st with held_alt := insert key st.held_alt }
    else if is_up then { st with held_alt := st.held_alt.erase key }
    else st
  else if key = .KEY_LEFTSHIFT ∨ key = .KEY_RIGHTSHIFT then
    if is_down then { st with held_shift := insert key st.held_shift }
    else if is_up then { st with held_shift := st.held_shift.erase key }
    else st
  else if key = .KEY_LEFTMETA ∨ key = .KEY_RIGHTMETA then
    if is_down then { st with held_meta := insert key st.held_meta }
    else if is_up then { st with held_meta := st.held_meta.erase key }
    else st
  else st

/-- `linux_evdev::modifiers_satisfied`: each required modifier must
have a non-empty held set. -/
def modifiers_satisfied (required : Modifiers) (st : LoopState) : Bool :=
  if required.ctrl ∧ st.held_ctrl = ∅ then false
  else if required.alt ∧ st.held_alt = ∅ then false
  else if required.shift ∧ st.held_shift = ∅ then false
  else if required.meta ∧ st.held_meta = ∅ then false
  else true

/-- The per-event body of `linux_evdev::run_loop`: update modifier
state, skip non-trigger keys and unsatisfied modifiers, then emit
`Pressed` on a value-1 event when not latched, `Released` on a value-0
event when latched, and ignore value-2 key repeats. -/
def hotkey_step (spec : HotkeySpec) (st : LoopState) (key : Key) (value : Int) :
    LoopState × Option HotkeyState :=
  let st := update_modifier_state key value st
  if key ≠ spec.key then (st, none)
  else if ¬ modifiers_satisfied spec.modifiers st then (st, none)
  else if value = 1 ∧ st.is_pressed = false then
    ({ st with is_pressed := true }, some .pressed)
  else if value = 0 ∧ st.is_pressed = true then
    ({ st with is_pressed := false }, some .released)
  else (st, none)

/-! ### `output/injector.rs` — the paste protocol -/

/-- `PasteFailureStep` (`output/injector.rs`). -/
inductive PasteFailureStep
  | clipboardWrite
  | keyInject
deriving DecidableEq

/-- `PasteFailureKind` (`output/injector.rs`). -/
inductive PasteFailureKind
  | failed
  | unconfirmed
deriving DecidableEq

/-- `PasteFailure` (`output/injector.rs`). -/
structure PasteFailure where
  step : PasteFailureStep
  kind : PasteFailureKind
  message : String
  transcript_on_clipboard : Bool
deriving DecidableEq

/-- `ClipboardSnapshot` (`output/injector.rs`): mime type and raw
bytes (bytes as `Nat`). -/
structure ClipboardSnapshot where
  mime : String
  data : List Nat
deriving DecidableEq

/-- The environment `paste_text` interacts with, as the results of its
I/O calls in program order: the initial clipboard snapshot
(`snapshot_clipboard().ok().flatten()`), whether the first
`set_clipboard_text` succeeds, whether `wait_for_clipboard_equals`
confirms the transcript within 250 ms, whether `send_paste_chord`
succeeds, whether `clipboard_equals(text)` still holds after the
650 ms hold, and whether `restore_clipboard` succeeds. -/
structure PasteEnv where
  previous : Option ClipboardSnapshot
  set_ok : Bool
  confirmed : Bool
  chord_ok : Bool
  hold_clipboard_matches : Bool
  restore_ok : Bool
deriving DecidableEq

/-- The result of `paste_text` plus whether `restore_clipboard` was
invoked. -/
structure PasteOutcome where
  result : Except PasteFailure Unit
  restore_attempted : Bool

/-- `paste_text` (`output/injector.rs`), with its I/O calls replaced by
the recorded `PasteEnv` results, in the source's order: snapshot, write
transcript, confirm, inject chord (on failure the transcript is
re-written and kept), hold 650 ms, then — only if a previous snapshot
exists and the clipboard still equals the transcript — restore it. -/
def paste_text (env : PasteEnv) : PasteOutcome :=
  if env.set_ok = false then
    { result := .error
        { step := .clipboardWrite,
          kind := .failed,
          message := "set clipboard failed",
          transcript_on_clipboard := false },
      restore_attempted := false }
  else if env.confirmed = false then
    { result := .error
        { step := .clipboardWrite,
          kind := .unconfirmed,
          message := "Transcript not observed on clipboard before paste; transcript left on clipboard.",
          transcript_on_clipboard := true },
      restore_attempted := false }
  else if env.chord_ok = false then
    { result := .error
        { step := .keyInject,
          kind := .failed,
          message := "send paste chord failed",
          transcript_on_clipboard := true },
      restore_attempted := false }
  else
    match env.previous with
    | none =>
      { result := .error
          { step := .clipboardWrite,
            kind := .unconfirmed,
            message := "Previous clipboard could not be snapshotted; transcript left on clipboard.",
            transcript_on_clipboard := true },
        restore_attempted := false }
    | some _ =>
      if env.hold_clipboard_matches = false then
        { result := .error
            { step := .clipboardWrite,
              kind := .unconfirmed,
              message := "Clipboard changed during paste window; not restoring previous clipboard.",
              transcript_on_clipboard := false },
          restore_attempted := false }
      else if env.restore_ok then
        { result := .ok (), restore_attempted := true }
      else
        { result := .error
            { step := .clipboardWrite,
              kind := .unconfirmed,
              message := "Failed to restore clipboard",
              transcript_on_clipboard := true },
          restore_attempted := true }

/-! ### `models/manager.rs` — built-in catalog merge -/

/-- `ModelKind` (`models/manager.rs`). -/
inductive ModelKind
  | whisperOnnx
  | whisperCt2
  | parakeet
  | vad
  | unknown
deriving DecidableEq

/-- `ModelStatus` (`models/manager.rs`).  The `f32` download progress
is modelled as `ℚ` (no arithmetic is performed on it here). -/
inductive ModelStatus
  | notInstalled
  | downloading (progress : ℚ) (downloaded_bytes : Nat) (total_bytes : Option Nat)
  | installed
  | error (msg : String)
deriving DecidableEq

/-- `ArchiveFormat` (`models/manager.rs`). -/
inductive ArchiveFormat
  | zip
  | tarGz
  | tarBz2
  | file
deriving DecidableEq

/-- `ModelArchiveSource` (`models/manager.rs`). -/
structure ModelArchiveSource where
  uri : String
  archive_format : ArchiveFormat
  strip_prefix_components : Nat
deriving DecidableEq

/-- `ModelHfSource` (`models/manager.rs`). -/
structure ModelHfSource where
  repo : String
  revision : Option String
  include_globs : List String
  exclude_globs : List String
deriving DecidableEq

/-- `ModelSource` (`models/manager.rs`). -/
inductive ModelSource
  | archive (src : ModelArchiveSource)
  | hfRepo (src : ModelHfSource)
deriving DecidableEq

/-- `ModelAsset` (`models/manager.rs`). -/
structure ModelAsset where
  kind : ModelKind
  name : String
  version : String
  checksum : Option String
  size_bytes : Nat
  status : ModelStatus
  source : Option ModelSource
deriving DecidableEq

/-- The per-match body of `ModelManager::register_defaults`: always
repair the source from the built-in; update `kind`/`version` only when
the existing status is `NotInstalled` or `Error`; demote `Error` to
`NotInstalled`. -/
def merge_builtin_asset (existing builtin : ModelAsset) : ModelAsset :=
  let existing :=
    if existing.source.isNone ∨ existing.source ≠ builtin.source then
      { existing with source := builtin.source }
    else existing
  match existing.status with
  | .notInstalled =>
    { existing with kind := builtin.kind, version := builtin.version }
  | .error _ =>
    { existing with
        kind := builtin.kind,
        version := builtin.version,
        status := .notInstalled }
  | _ => existing

/-- One `register_defaults` iteration over the asset list: mutate the
first entry whose name matches the built-in, else push the built-in at
the end. -/
def register_builtin (assets : List ModelAsset) (builtin : ModelAsset) : List ModelAsset :=
  match assets with
  | [] => [builtin]
  | a :: rest =>
    if a.name = builtin.name then merge_builtin_asset a builtin :: rest
    else a :: register_builtin rest builtin

/-- `ModelManager::register_defaults`: merge every built-in default
into the loaded manifest. -/
def register_defaults (assets defaults : List ModelAsset) : List ModelAsset :=
  defaults.foldl register_builtin assets

/-! ### `core/settings.rs` — frontend settings migration -/

structure FrontendSettings where
  hotkey_mode : String
  push_to_talk_hotkey : String
  toggle_to_talk_hotkey : String
  hud_theme : String
  show_overlay_on_wayland : Bool
  asr_family : String
  whisper_backend : String
  whisper_model : String
  whisper_model_language : String
  whisper_precision : String
  paste_shortcut : String
  language : String
  auto_detect_language : Bool
  autoclean_mode : String
  debug_transcripts : Bool
  audio_device_id : Option String
  vad_sensitivity : String
  legacy_asr_backend : Option String
deriving DecidableEq

def DEFAULT_PUSH_TO_TALK_HOTKEY : String := "RightAlt"
def DEFAULT_TOGGLE_TO_TALK_HOTKEY : String := "RightAlt"
def LEGACY_LINUX_PUSH_TO_TALK : String := "Alt+Shift+A"
def LEGACY_LINUX_TOGGLE_TO_TALK : String := "Alt+Shift+S"

def FrontendSettings.default : FrontendSettings :=
  { hotkey_mode := "hold"
    push_to_talk_hotkey := DEFAULT_PUSH_TO_TALK_HOTKEY
    toggle_to_talk_hotkey := DEFAULT_TOGGLE_TO_TALK_HOTKEY
    hud_theme := "system"
    show_overlay_on_wayland := false
    asr_family := "parakeet"
    whisper_backend := "ct2"
    whisper_model := "small"
    whisper_model_language := "multi"
    whisper_precision := "int8"
    paste_shortcut := "ctrl-shift-v"
    language := "auto"
    auto_detect_language := true
    autoclean_mode := "fast"
    debug_transcripts := false
    audio_device_id := none
    vad_sensitivity := "medium"
    legacy_asr_backend := none }

/-! `migrate_frontend_settings`, statement by statement.  Each Rust
statement of the function body becomes one single-`if` stage; the
function is their composition in source order. -/

/-- Keep `push_to_talk_hotkey` non-empty. -/
def migrate_push_hotkey_default (s : FrontendSettings) : FrontendSettings :=
  if (rustTrim s.push_to_talk_hotkey.toList).isEmpty then
    { s with push_to_talk_hotkey := DEFAULT_PUSH_TO_TALK_HOTKEY } else s

/-- Keep `toggle_to_talk_hotkey` non-empty. -/
def migrate_toggle_hotkey_default (s : FrontendSettings) : FrontendSettings :=
  if (rustTrim s.toggle_to_talk_hotkey.toList).isEmpty then
    { s with toggle_to_talk_hotkey := DEFAULT_TOGGLE_TO_TALK_HOTKEY } else s

/-- Replace the legacy Linux push-to-talk chord by the new single-key
default (the `cfg!(target_os = "linux")` guard is `true`: this is the
Linux build). -/
def migrate_push_hotkey_legacy (s : FrontendSettings) : FrontendSettings :=
  if s.push_to_talk_hotkey = LEGACY_LINUX_PUSH_TO_TALK then
    { s with push_to_talk_hotkey := DEFAULT_PUSH_TO_TALK_HOTKEY } else s

/-- Replace the legacy Linux toggle-to-talk chord likewise. -/
def migrate_toggle_hotkey_legacy (s : FrontendSettings) : FrontendSettings :=
  if s.toggle_to_talk_hotkey = LEGACY_LINUX_TOGGLE_TO_TALK then
    { s with toggle_to_talk_hotkey := DEFAULT_TOGGLE_TO_TALK_HOTKEY } else s

/-- `legacy_asr_backend.take()` — `"whisper"` maps to the
whisper/onnx pair, `"parakeet"` and anything else to parakeet. -/
def migrate_legacy_backend (s : FrontendSettings) : FrontendSettings :=
  match s.legacy_asr_backend with
  | some legacy =>
    let s := { s with legacy_asr_backend := none }
    if legacy = "whisper" then
      { s with asr_family := "whisper", whisper_backend := "onnx" }
    else
      { s with asr_family := "parakeet" }
  | none => s

/-- Empty strings become component defaults, one field per
statement. -/
def migrate_family_default (s : FrontendSettings) : FrontendSettings :=
  if s.asr_family = "" then { s with asr_family := "parakeet" } else s

def migrate_backend_default (s : FrontendSettings) : FrontendSettings :=
  if s.whisper_backend = "" then { s with whisper_backend := "ct2" } else s

def migrate_model_default (s : FrontendSettings) : FrontendSettings :=
  if s.whisper_model = "" then { s with whisper_model := "small" } else s

def migrate_language_default (s : FrontendSettings) : FrontendSettings :=
  if s.whisper_model_language = "" then
    { s with whisper_model_language := "multi" } else s

def migrate_precision_default (s : FrontendSettings) : FrontendSettings :=
  if s.whisper_precision = "" then { s with whisper_precision := "int8" } else s

/-- The retired `"polish"` autoclean mode becomes `"fast"`. -/
def migrate_autoclean (s : FrontendSettings) : FrontendSettings :=
  if s.autoclean_mode = "polish" then { s with autoclean_mode := "fast" } else s

/-- Large Whisper models force `whisper_model_language = "multi"`. -/
def migrate_large_lang (s : FrontendSettings) : FrontendSettings :=
  if s.whisper_model = "large-v3" ∨ s.whisper_model = "large-v3-turbo" then
    { s with whisper_model_language := "multi" }
  else s

/-- `migrate_frontend_settings` (`core/settings.rs`): the statements
in source order. -/
def migrate_frontend_settings (s : FrontendSettings) : FrontendSettings :=
  migrate_large_lang (migrate_autoclean (migrate_precision_default
    (migrate_language_default (migrate_model_default (migrate_backend_default
      (migrate_family_default (migrate_legacy_backend (migrate_toggle_hotkey_legacy
        (migrate_push_hotkey_legacy (migrate_toggle_hotkey_default
          (migrate_push_hotkey_default s)))))))))))

structure PersistedFrontendSettings where
  hotkey_mode : String
  push_to_talk_hotkey : String
  toggle_to_talk_hotkey : String
  hud_theme : String
  show_overlay_on_wayland : Bool
  asr_family : String
  whisper_backend : String
  whisper_model : String
  whisper_model_language : String
  whisper_precision : String
  paste_shortcut : String
  language : String
  auto_detect_language : Bool
  autoclean_mode : String
  debug_transcripts : Bool
  audio_device_id : Option String
  vad_sensitivity : String
deriving DecidableEq

def persist_frontend (s : FrontendSettings) : PersistedFrontendSettings :=
  { hotkey_mode := s.hotkey_mode
    push_to_talk_hotkey := s.push_to_talk_hotkey
    toggle_to_talk_hotkey := s.toggle_to_talk_hotkey
    hud_theme := s.hud_theme
    show_overlay_on_wayland := s.show_overlay_on_wayland
    asr_family := s.asr_family
    whisper_backend := s.whisper_backend
    whisper_model := s.whisper_model
    whisper_model_language := s.whisper_model_language
    whisper_precision := s.whisper_precision
    paste_shortcut := s.paste_shortcut
    language := s.language
    auto_detect_language := s.auto_detect_language
    autoclean_mode := s.autoclean_mode
    debug_transcripts := s.debug_transcripts
    audio_device_id := s.audio_device_id
    vad_sensitivity := s.vad_sensitivity }

def parse_frontend (p : PersistedFrontendSettings) : FrontendSettings :=
  { hotkey_mode := p.hotkey_mode
    push_to_talk_hotkey := p.push_to_talk_hotkey
    toggle_to_talk_hotkey := p.toggle_to_talk_hotkey
    hud_theme := p.hud_theme
    show_overlay_on_wayland := p.show_overlay_on_wayland
    asr_family := p.asr_family
    whisper_backend := p.whisper_backend
    whisper_model := p.whisper_model
    whisper_model_language := p.whisper_model_language
    whisper_precision := p.whisper_precision
    paste_shortcut := p.paste_shortcut
    language := p.language
    auto_detect_language := p.auto_detect_language
    autoclean_mode := p.autoclean_mode
    debug_transcripts := p.debug_transcripts
    audio_device_id := p.audio_device_id
    vad_sensitivity := p.vad_sensitivity
    legacy_asr_backend := none }

def SettingsFixed (s : FrontendSettings) : Prop :=
  (rustTrim s.push_to_talk_hotkey.toList).isEmpty = false ∧
  (rustTrim s.toggle_to_talk_hotkey.toList).isEmpty = false ∧
  s.push_to_talk_hotkey ≠ LEGACY_LINUX_PUSH_TO_TALK ∧
  s.toggle_to_talk_hotkey ≠ LEGACY_LINUX_TOGGLE_TO_TALK ∧
  s.legacy_asr_backend = none ∧
  s.asr_family ≠ "" ∧
  s.whisper_backend ≠ "" ∧
  s.whisper_model ≠ "" ∧
  s.whisper_model_language ≠ "" ∧
  s.whisper_precision ≠ "" ∧
  s.autoclean_mode ≠ "polish" ∧
  ((s.whisper_model = "large-v3" ∨ s.whisper_model = "large-v3-turbo") →
    s.whisper_model_language = "multi")

/-- The inductive invariant for C8, over a single `record` /
`note_buffer_drop` step. -/
def TrimInv (frame_samples : Nat) (st : VadTrimState) : Prop :=
  frame_samples ∣ st.active_samples ∧
  st.active_samples ≤ st.total_samples ∧
  (∀ x, st.first_active = some x →
    x ≤ st.total_samples ∧ ∃ y, st.last_active = some y ∧ x ≤ y)

-- THEOREMS BELOW

/-! ### Supporting lemmas -/

theorem push_samples_eq (b s : List α) :
    push_samples b s = ((b ++ s).drop (b.length + s.length - MAX_SAMPLES),
      b.length + s.length - MAX_SAMPLES) := by
  unfold push_samples truncate_if_needed
  split
  · next h =>
    have hlen : (b ++ s).length = b.length + s.length := List.length_append b s
    rw [hlen]
  · next h =>
    have hlen : ¬ MAX_SAMPLES < b.length + s.length := by
      rwa [List.length_append] at h
    have h0 : b.length + s.length - MAX_SAMPLES = 0 := by omega
    rw [h0, List.drop_zero]

theorem push_samples_drop_count (b s : List α) :
    (push_samples b s).2 = b.length + s.length - MAX_SAMPLES := by
  rw [push_samples_eq]

theorem push_samples_head_eviction (b s : List α) :
    (push_samples b s).1 = (b ++ s).drop (push_samples b s).2 := by
  rw [push_samples_eq]

theorem push_samples_length_le (b s : List α) :
    (push_samples b s).1.length ≤ MAX_SAMPLES := by
  rw [push_samples_eq]
  simp only [List.length_drop, List.length_append]
  omega

/-! ### Claim theorems: ASR engine -/

/-- **C2.** For every sequence of `push_samples` calls starting from
the empty buffer, the resident buffer length never exceeds the
capacity `MAX_SAMPLES` (120 s × 16 kHz); each push evicts exactly the
overflow from the head of the buffer and returns that count (0 when
nothing was dropped); `take_samples` returns the whole buffer and
leaves it empty. -/
theorem asr_ring_bounded_eviction {α : Type} (pushes : List (List α)) :
    (∀ b ∈ push_states ([] : List α) pushes, b.length ≤ MAX_SAMPLES) ∧
    (∀ b s : List α,
      (push_samples b s).2 = b.length + s.length - MAX_SAMPLES ∧
      (push_samples b s).1 = (b ++ s).drop (push_samples b s).2 ∧
      (push_samples b s).1.length ≤ MAX_SAMPLES) ∧
    (∀ b : List α, take_samples b = (b, [])) := by
  refine ⟨?_, fun b s => ⟨push_samples_drop_count b s, push_samples_head_eviction b s,
    push_samples_length_le b s⟩, fun _ => rfl⟩
  have main : ∀ (l : List (List α)) (init : List α), init.length ≤ MAX_SAMPLES →
      ∀ b ∈ push_states init l, b.length ≤ MAX_SAMPLES := by
    intro l
    induction l with
    | nil =>
      intro init hinit b hb
      simp [push_states, List.scanl] at hb
      simpa [hb] using hinit
    | cons s rest ih =>
      intro init hinit b hb
      simp only [push_states, List.scanl] at hb
      rcases List.mem_cons.mp hb with h | h
      · simpa [h] using hinit
      · exact ih _ (push_samples_length_le init s) b h
  exact main pushes [] (by simp [MAX_SAMPLES])

/-- Witness for C2 at a concrete input. -/
theorem asr_ring_bounded_eviction_witness :
    ([1, 2] : List Nat).length ≤ MAX_SAMPLES :=
  (asr_ring_bounded_eviction [[1, 2]]).1 [1, 2] (by decide)

/-- **C3 (amended).** For every *non-empty* input, only a sample rate
of 16 kHz is accepted by `finalize_samples`: any other rate yields an
error.  (The empty input returns `Ok(None)` before the rate check —
see the counterexample and C10.) -/
theorem finalize_rejects_non_16k {α : Type} (cfg : AsrConfig)
    (sherpa : SherpaOracle α) (ct2 : Ct2Oracle α) (sample_rate : Nat)
    (samples : List α) (hrate : sample_rate ≠ 16000) (hne : samples ≠ []) :
    finalize_samples cfg sherpa ct2 sample_rate samples =
      .error (.sampleRateUnsupported sample_rate) := by
  unfold finalize_samples
  rw [if_neg (by simpa [List.isEmpty_iff] using hne)]
  cases cfg.backend <;>
    simp [transcribe_with_sherpa, transcribe_with_ct2, hrate, Except.map]

/-- Witness for the amended C3 at a concrete input. -/
theorem finalize_rejects_non_16k_witness :
    finalize_samples AsrConfig.default ⟨.ok (), fun _ => ""⟩
        ⟨.ok (), fun _ => .ok ""⟩ 48000 ([0] : List Nat) =
      .error (.sampleRateUnsupported 48000) :=
  finalize_rejects_non_16k AsrConfig.default _ _ 48000 [0] (by decide) (by decide)

/-- **C3 (counterexample to the claim as stated).**  With an empty
sample slice, `finalize_samples` at 8 kHz returns `Ok(None)`, not an
error — so it is not the case that *every* input with a non-16 kHz
rate is rejected. -/
theorem finalize_empty_8k_not_error :
    finalize_samples AsrConfig.default ⟨.ok (), fun _ => ""⟩
        ⟨.ok (), fun _ => .ok ""⟩ 8000 ([] : List Nat) = .ok none := rfl

/-- **C10.** For every sample rate (supported or not), every
configuration and recognizer behavior, `finalize_samples` on an empty
slice returns `Ok(None)`: the sample-rate check and the recognizer
(lazy initialization included) are bypassed entirely. -/
theorem finalize_empty_bypasses_everything {α : Type} (cfg : AsrConfig)
    (sherpa : SherpaOracle α) (ct2 : Ct2Oracle α) (sample_rate : Nat) :
    finalize_samples cfg sherpa ct2 sample_rate ([] : List α) = .ok none := rfl

/-! ### Claim theorems: trim window and trim-state invariant -/

/-- **C1.** `compute_trim_range` computes exactly the window the
specification describes (`trim_window_spec`, stated in absolute sample
coordinates from the claim's formulas), shifted into ring-relative
coordinates by subtracting `buffer_start`; the three abort reasons
(`no-audio`, `no-speech`, `trim-rejected`) agree as well. -/
theorem compute_trim_range_matches_spec (sample_rate buffer_len : Nat)
    (trim : VadTrimState) :
    compute_trim_range sample_rate buffer_len trim =
      (trim_window_spec sample_rate buffer_len trim).map
        (fun p => (p.1 - trim.buffer_start, p.2 - trim.buffer_start)) := by
  unfold compute_trim_range trim_window_spec
  by_cases hlen : buffer_len = 0
  · simp [hlen, Except.map]
  · rw [if_neg hlen, if_neg hlen]
    cases hfa : trim.first_active with
    | none => simp [Except.map]
    | some first =>
      simp only [Option.isNone_some, Bool.false_eq_true, false_or, Option.getD_some]
      by_cases hact : trim.active_samples < VAD_MIN_SPEECH_MS * sample_rate / 1000
      · rw [if_pos hact, if_pos hact]; rfl
      · rw [if_neg hact, if_neg hact]
        by_cases htail : trim.buffer_start + buffer_len - trim.last_active.getD first ≤
            VAD_MAX_TRAILING_SILENCE_MS * sample_rate / 1000
        · rw [if_pos htail, if_pos htail, Nat.min_self]
          by_cases hrej : trim.buffer_start + buffer_len ≤
              max (first - VAD_PRE_ROLL_MS * sample_rate / 1000) trim.buffer_start
          · rw [if_pos hrej, if_pos hrej]; rfl
          · rw [if_neg hrej, if_neg hrej]; rfl
        · rw [if_neg htail, if_neg htail]
          by_cases hrej : min (trim.last_active.getD first + VAD_POST_ROLL_MS * sample_rate / 1000)
              (trim.buffer_start + buffer_len) ≤
              max (first - VAD_PRE_ROLL_MS * sample_rate / 1000) trim.buffer_start
          · rw [if_pos hrej, if_pos hrej]; rfl
          · rw [if_neg hrej, if_neg hrej]; rfl

theorem trimInv_reset (frame_samples : Nat) : TrimInv frame_samples VadTrimState.reset := by
  refine ⟨⟨0, rfl⟩, le_refl _, ?_⟩
  intro x hx
  simp [VadTrimState.reset] at hx

theorem trimInv_step (frame_samples : Nat) (st : VadTrimState) (op : TrimOp)
    (h : TrimInv frame_samples st) :
    TrimInv frame_samples (applyTrimOp frame_samples st op) := by
  obtain ⟨hdvd, hle, hfa⟩ := h
  unfold TrimInv
  cases op with
  | noteDrop dropped =>
    simp only [applyTrimOp, VadTrimState.note_buffer_drop]
    split
    · exact ⟨hdvd, hle, hfa⟩
    · exact ⟨hdvd, hle, hfa⟩
  | record decision =>
    cases decision with
    | inactive =>
      simp only [applyTrimOp, VadTrimState.record]
      refine ⟨hdvd, le_trans hle (Nat.le_add_right _ _), ?_⟩
      intro x hx
      obtain ⟨hxt, y, hy, hxy⟩ := hfa x hx
      exact ⟨le_trans hxt (Nat.le_add_right _ _), y, hy, hxy⟩
    | active =>
      simp only [applyTrimOp, VadTrimState.record]
      refine ⟨Nat.dvd_add hdvd dvd_rfl, Nat.add_le_add_right hle _, ?_⟩
      intro x hx
      split at hx
      · next hnone =>
        rw [Option.isNone_iff_eq_none] at hnone
        simp only [Option.some.injEq] at hx
        subst hx
        exact ⟨Nat.le_add_right _ _, _, rfl, Nat.le_add_right _ _⟩
      · next hsome =>
        obtain ⟨hxt, y, hy, hxy⟩ := hfa x hx
        exact ⟨le_trans hxt (Nat.le_add_right _ _), _, rfl,
          le_trans hxt (Nat.le_add_right _ _)⟩

/-- **C8.** After every sequence of `record` and `note_buffer_drop`
operations from the reset state (with the session's constant frame
size), the `TrimState` invariant holds: whenever `first_active` is
`some`, `last_active` is `some` and at least as large; and
`active_samples` is a multiple of the frame size and at most
`total_samples`. -/
theorem trim_state_invariant (frame_samples : Nat) (ops : List TrimOp) :
    frame_samples ∣ (runTrimOps frame_samples ops).active_samples ∧
    (runTrimOps frame_samples ops).active_samples ≤ (runTrimOps frame_samples ops).total_samples ∧
    (∀ x, (runTrimOps frame_samples ops).first_active = some x →
      ∃ y, (runTrimOps frame_samples ops).last_active = some y ∧ x ≤ y) := by
  have main : ∀ (l : List TrimOp) (st : VadTrimState), TrimInv frame_samples st →
      TrimInv frame_samples (l.foldl (applyTrimOp frame_samples) st) := by
    intro l
    induction l with
    | nil => intro st h; exact h
    | cons op rest ih =>
      intro st h
      exact ih _ (trimInv_step frame_samples st op h)
  obtain ⟨hdvd, hle, hfa⟩ := main ops VadTrimState.reset (trimInv_reset frame_samples)
  exact ⟨hdvd, hle, fun x hx => (hfa x hx).2⟩

/-- Witness for C8 at a concrete operation sequence. -/
theorem trim_state_invariant_witness :
    (160 : Nat) ∣ (runTrimOps 160 [.record .inactive, .record .active, .noteDrop 7]).active_samples ∧
    (∃ y, (runTrimOps 160 [.record .inactive, .record .active, .noteDrop 7]).last_active = some y ∧ 160 ≤ y) := by
  have h := trim_state_invariant 160 [.record .inactive, .record .active, .noteDrop 7]
  exact ⟨h.1, h.2.2 160 (by rfl)⟩

theorem toNat_char_ofNat {n : Nat} (h : n.isValidChar) : (Char.ofNat n).toNat = n := by
  simp [Char.ofNat, h, Char.ofNatAux, Char.toNat, UInt32.toNat, BitVec.toNat_ofNatLt]

theorem char_toNat_injective {c d : Char} (h : c.toNat = d.toNat) : c = d := by
  have := congrArg Char.ofNat h
  rwa [Char.ofNat_toNat, Char.ofNat_toNat] at this

theorem char_le_iff_toNat (c d : Char) : (c ≤ d) ↔ c.toNat ≤ d.toNat := by rfl

theorem char_eq_iff_toNat (c d : Char) : (c = d) ↔ c.toNat = d.toNat :=
  ⟨fun h => by rw [h], char_toNat_injective⟩

theorem isWhitespace_iff_toNat (c : Char) :
    c.isWhitespace = true ↔ (c.toNat = 32 ∨ c.toNat = 9 ∨ c.toNat = 13 ∨ c.toNat = 10) := by
  have hsp : (' ').toNat = 32 := rfl
  have htab : ('\t').toNat = 9 := rfl
  have hcr : ('\x0d').toNat = 13 := rfl
  have hlf : ('\n').toNat = 10 := rfl
  simp only [Char.isWhitespace, Bool.or_eq_true, decide_eq_true_eq, char_eq_iff_toNat,
    hsp, htab, hcr, hlf]
  tauto

theorem lower_bounds_toNat {c : Char} (h : 'a' ≤ c ∧ c ≤ 'z') :
    97 ≤ c.toNat ∧ c.toNat ≤ 122 :=
  ⟨(char_le_iff_toNat _ _).mp h.1, (char_le_iff_toNat _ _).mp h.2⟩

theorem upper_valid {c : Char} (h : 'a' ≤ c ∧ c ≤ 'z') : (c.toNat - 32).isValidChar := by
  obtain ⟨h1, h2⟩ := lower_bounds_toNat h
  left; omega

theorem toAsciiUpper_isWhitespace (c : Char) :
    (toAsciiUpper c).isWhitespace = c.isWhitespace := by
  unfold toAsciiUpper
  split
  · next hc =>
    obtain ⟨h1, h2⟩ := lower_bounds_toNat hc
    have ht := toNat_char_ofNat (upper_valid hc)
    have lhs : (Char.ofNat (c.toNat - 32)).isWhitespace = false := by
      rw [Bool.eq_false_iff]
      intro hw
      have := (isWhitespace_iff_toNat _).mp hw
      omega
    have rhs : c.isWhitespace = false := by
      rw [Bool.eq_false_iff]
      intro hw
      have := (isWhitespace_iff_toNat _).mp hw
      omega
    rw [lhs, rhs]
  · rfl

theorem toAsciiUpper_idem (c : Char) :
    toAsciiUpper (toAsciiUpper c) = toAsciiUpper c := by
  unfold toAsciiUpper
  split
  · next hc =>
    obtain ⟨h1, h2⟩ := lower_bounds_toNat hc
    have ht := toNat_char_ofNat (upper_valid hc)
    rw [if_neg]
    intro hup
    obtain ⟨h3, h4⟩ := lower_bounds_toNat hup
    omega
  · rfl

theorem toAsciiUpper_eq_space_iff (c : Char) : (toAsciiUpper c = ' ') ↔ (c = ' ') := by
  have hsp : (' ').toNat = 32 := rfl
  unfold toAsciiUpper
  split
  · next hc =>
    obtain ⟨h1, h2⟩ := lower_bounds_toNat hc
    have ht := toNat_char_ofNat (upper_valid hc)
    constructor
    · intro h
      exfalso
      have h32 := congrArg Char.toNat h
      rw [ht, hsp] at h32
      omega
    · intro h
      exfalso
      have h32 := congrArg Char.toNat h
      rw [hsp] at h32
      omega
  · exact Iff.rfl

theorem dropWhile_append_of_forall {p : Char → Bool} {pre s : List Char}
    (h : ∀ c ∈ pre, p c = true) :
    (pre ++ s).dropWhile p = s.dropWhile p := by
  rw [List.dropWhile_append, List.isEmpty_iff.mpr (List.dropWhile_eq_nil_iff.mpr h)]
  simp

theorem rustTrim_pad (pre s post : List Char)
    (hpre : ∀ c ∈ pre, c.isWhitespace = true)
    (hpost : ∀ c ∈ post, c.isWhitespace = true) :
    rustTrim (pre ++ s ++ post) = rustTrim s := by
  unfold rustTrim
  rw [List.append_assoc, dropWhile_append_of_forall hpre]
  by_cases hs : (s.dropWhile Char.isWhitespace) = []
  · rw [List.dropWhile_append, List.isEmpty_iff.mpr hs, if_pos rfl,
      List.dropWhile_eq_nil_iff.mpr hpost, hs]
  · rw [List.dropWhile_append, if_neg (by simpa [List.isEmpty_iff] using hs)]
    rw [List.reverse_append]
    rw [dropWhile_append_of_forall (by intro c hc; exact hpost c (List.mem_reverse.mp hc))]

theorem rustTrim_idem (s : List Char) : rustTrim (rustTrim s) = rustTrim s := by
  have hdecomp : s = s.takeWhile Char.isWhitespace ++ rustTrim s ++
      (((s.dropWhile Char.isWhitespace).reverse.takeWhile Char.isWhitespace).reverse) := by
    unfold rustTrim
    rw [List.append_assoc]
    rw [← List.reverse_append]
    rw [List.takeWhile_append_dropWhile]
    rw [List.reverse_reverse]
    rw [List.takeWhile_append_dropWhile]
  calc rustTrim (rustTrim s)
      = rustTrim (s.takeWhile Char.isWhitespace ++ rustTrim s ++
          (((s.dropWhile Char.isWhitespace).reverse.takeWhile Char.isWhitespace).reverse)) := by
        rw [rustTrim_pad]
        · intro c hc
          exact List.mem_takeWhile_imp hc
        · intro c hc
          exact List.mem_takeWhile_imp (List.mem_reverse.mp hc)
    _ = rustTrim s := by rw [← hdecomp]

theorem rustTrim_map_upper (s : List Char) :
    rustTrim (s.map toAsciiUpper) = (rustTrim s).map toAsciiUpper := by
  have hcomp : (Char.isWhitespace ∘ toAsciiUpper) = Char.isWhitespace :=
    funext toAsciiUpper_isWhitespace
  unfold rustTrim
  rw [List.dropWhile_map, hcomp, ← List.map_reverse, List.dropWhile_map, hcomp,
    ← List.map_reverse]

theorem parse_key_pad (pre s post : List Char)
    (hpre : ∀ c ∈ pre, c.isWhitespace = true)
    (hpost : ∀ c ∈ post, c.isWhitespace = true) :
    parse_key (pre ++ s ++ post) = parse_key s := by
  simp only [parse_key]
  rw [rustTrim_pad pre s post hpre hpost]

theorem parse_key_upper (s : List Char) :
    parse_key (s.map toAsciiUpper) = parse_key s := by
  have hidem : (toAsciiUpper ∘ toAsciiUpper) = toAsciiUpper := funext toAsciiUpper_idem
  simp only [parse_key]
  rw [rustTrim_map_upper]
  have hie : (List.map toAsciiUpper (rustTrim s)).isEmpty = (rustTrim s).isEmpty := by
    cases rustTrim s <;> simp
  rw [hie, List.map_map, hidem]

theorem splitPlus_no_plus (s : List Char) (h : '+' ∉ s) : splitPlus s = [s] := by
  induction s with
  | nil => rfl
  | cons c rest ih =>
    have hc : ¬ (c = '+') := fun hc => h (hc ▸ List.mem_cons_self c rest)
    have hrest : '+' ∉ rest := fun hr => h (List.mem_cons_of_mem c hr)
    unfold splitPlus
    rw [if_neg hc, ih hrest]

theorem apply_modifier_spec (m : Modifiers) (seg : List Char) :
    apply_modifier m seg =
      { ctrl := m.ctrl || decide (seg = "Ctrl".toList ∨ seg = "Control".toList)
        alt := m.alt || decide (seg = "Alt".toList)
        shift := m.shift || decide (seg = "Shift".toList)
        meta := m.meta || decide (seg = "Meta".toList ∨ seg = "Super".toList ∨
          seg = "Command".toList ∨ seg = "Logo".toList) } := by
  unfold apply_modifier
  by_cases h1 : seg = "Ctrl".toList ∨ seg = "Control".toList
  · rw [if_pos h1]
    have h2 : ¬ (seg = "Alt".toList) := by rcases h1 with h | h <;> subst h <;> decide
    have h3 : ¬ (seg = "Shift".toList) := by rcases h1 with h | h <;> subst h <;> decide
    have h4 : ¬ (seg = "Meta".toList ∨ seg = "Super".toList ∨ seg = "Command".toList ∨
        seg = "Logo".toList) := by rcases h1 with h | h <;> subst h <;> decide
    simp [h1, h2, h3, h4]
    exact ⟨Or.inr h1, fun h => absurd h h2, fun h => absurd h h3, fun h => absurd h h4⟩
  · rw [if_neg h1]
    by_cases h2 : seg = "Alt".toList
    · rw [if_pos h2]
      have h3 : ¬ (seg = "Shift".toList) := by subst h2; decide
      have h4 : ¬ (seg = "Meta".toList ∨ seg = "Super".toList ∨ seg = "Command".toList ∨
          seg = "Logo".toList) := by subst h2; decide
      simp [h1, h2, h3, h4]
    · rw [if_neg h2]
      by_cases h3 : seg = "Shift".toList
      · rw [if_pos h3]
        have h4 : ¬ (seg = "Meta".toList ∨ seg = "Super".toList ∨ seg = "Command".toList ∨
            seg = "Logo".toList) := by subst h3; decide
        simp [h1, h2, h3, h4]
      · rw [if_neg h3]
        by_cases h4 : seg = "Meta".toList ∨ seg = "Super".toList ∨ seg = "Command".toList ∨
            seg = "Logo".toList
        · rw [if_pos h4]
          simp [h1, h2, h3, h4]
          exact ⟨fun h => absurd h h1, fun h => absurd h h2, fun h => absurd h h3, Or.inr h4⟩
        · rw [if_neg h4]
          rw [decide_eq_false h1, decide_eq_false h2, decide_eq_false h3, decide_eq_false h4]
          simp

theorem parse_hotkey_single_key (s : List Char) (hplus : '+' ∉ s)
    (hne : (rustTrim s).isEmpty = false) :
    parse_hotkey s = (parse_key s).map
      (fun k => { key := k, modifiers := ⟨false, false, false, false⟩ }) := by
  have hsegs : hotkeySegments s = [rustTrim s] := by
    unfold hotkeySegments
    rw [splitPlus_no_plus s hplus]
    simp [List.filter, hne]
  have hkey : parse_key (rustTrim s) = parse_key s := by
    simp only [parse_key]
    rw [rustTrim_idem]
  simp only [parse_hotkey, hsegs]
  simp [hkey]

/-! ### Claim theorems: hotkey shortcut grammar -/

/-- **C6 (amended).**  Hotkey parsing is whitespace-tolerant for every
segment and case-insensitive for the final key segment; a modifier
segment must match one of the exact case-sensitive spellings
`Ctrl`/`Control`/`Alt`/`Shift`/`Meta`/`Super`/`Command`/`Logo`
(any other segment is silently ignored); a single-key binding with no
modifiers parses successfully (to the key with no required
modifiers). -/
theorem hotkey_parsing_amended (pre s post : List Char) (m : Modifiers)
    (hpre : ∀ c ∈ pre, c.isWhitespace = true)
    (hpost : ∀ c ∈ post, c.isWhitespace = true) :
    parse_key (pre ++ s ++ post) = parse_key s ∧
    parse_key (s.map toAsciiUpper) = parse_key s ∧
    apply_modifier m s =
      { ctrl := m.ctrl || decide (s = "Ctrl".toList ∨ s = "Control".toList)
        alt := m.alt || decide (s = "Alt".toList)
        shift := m.shift || decide (s = "Shift".toList)
        meta := m.meta || decide (s = "Meta".toList ∨ s = "Super".toList ∨
          s = "Command".toList ∨ s = "Logo".toList) } ∧
    ('+' ∉ s → (rustTrim s).isEmpty = false →
      parse_hotkey s = (parse_key s).map
        (fun k => { key := k, modifiers := ⟨false, false, false, false⟩ })) :=
  ⟨parse_key_pad pre s post hpre hpost, parse_key_upper s, apply_modifier_spec m s,
    fun hplus hne => parse_hotkey_single_key s hplus hne⟩

/-- Witness for the amended C6 at concrete inputs. -/
theorem hotkey_parsing_amended_witness :
    parse_key (" ".toList ++ "shift".toList ++ " ".toList) = parse_key "shift".toList ∧
    parse_key ("shift".toList.map toAsciiUpper) = parse_key "shift".toList ∧
    apply_modifier ⟨false, false, false, false⟩ "shift".toList =
      { ctrl := false || decide ("shift".toList = "Ctrl".toList ∨ "shift".toList = "Control".toList)
        alt := false || decide ("shift".toList = "Alt".toList)
        shift := false || decide ("shift".toList = "Shift".toList)
        meta := false || decide ("shift".toList = "Meta".toList ∨ "shift".toList = "Super".toList ∨
          "shift".toList = "Command".toList ∨ "shift".toList = "Logo".toList) } ∧
    parse_hotkey "shift".toList = (parse_key "shift".toList).map
      (fun k => { key := k, modifiers := ⟨false, false, false, false⟩ }) := by
  have h := hotkey_parsing_amended " ".toList "shift".toList " ".toList
    ⟨false, false, false, false⟩ (by decide) (by decide)
  exact ⟨h.1, h.2.1, h.2.2.1, h.2.2.2 (by decide) (by decide)⟩

/-- **C6 (counterexample to the claim as stated).**  Modifier
matching is case-sensitive: `"ctrl+A"` parses with `ctrl = false`
(the lowercase modifier segment is silently dropped), while
`"Ctrl+A"` parses with `ctrl = true` — so parsing is not
case-insensitive for every segment. -/
theorem hotkey_modifier_case_counterexample :
    parse_hotkey "ctrl+A".toList =
      some { key := .KEY_A, modifiers := ⟨false, false, false, false⟩ } ∧
    parse_hotkey "Ctrl+A".toList =
      some { key := .KEY_A, modifiers := ⟨true, false, false, false⟩ } := by
  constructor
  · decide
  · decide

theorem update_modifier_repeat_id (key : Key) (st : LoopState) :
    update_modifier_state key 2 st = st := by
  simp only [update_modifier_state]
  norm_num

theorem update_modifier_preserves_latch (key : Key) (value : Int) (st : LoopState) :
    (update_modifier_state key value st).is_pressed = st.is_pressed := by
  simp only [update_modifier_state]
  repeat' split
  all_goals rfl

/-- **C7.**  In the raw-input hotkey loop, a key-repeat event
(value 2) never changes the held-modifier sets or the pressed latch
and never emits an edge; `Pressed` is emitted only on a value-1 event
for the trigger key while it is not latched and the required modifiers
are held; `Released` is emitted only on a value-0 event for the
trigger key while it is latched. -/
theorem raw_input_edge_discipline (spec : HotkeySpec) (st : LoopState) :
    (∀ key, hotkey_step spec st key 2 = (update_modifier_state key 2 st, none) ∧
      update_modifier_state key 2 st = st) ∧
    (∀ key value, (hotkey_step spec st key value).2 = some .pressed →
      value = 1 ∧ key = spec.key ∧ st.is_pressed = false ∧
      modifiers_satisfied spec.modifiers (update_modifier_state key value st) = true) ∧
    (∀ key value, (hotkey_step spec st key value).2 = some .released →
      value = 0 ∧ key = spec.key ∧ st.is_pressed = true) := by
  refine ⟨?_, ?_, ?_⟩
  · intro key
    refine ⟨?_, update_modifier_repeat_id key st⟩
    simp only [hotkey_step]
    split
    · rfl
    · split
      · rfl
      · rw [if_neg (by norm_num), if_neg (by norm_num)]
  · intro key value h
    simp only [hotkey_step] at h
    split at h
    · simp at h
    · split at h
      · simp at h
      · next hkey hsat =>
        rw [not_not] at hkey
        split at h
        · next hcond =>
          rw [update_modifier_preserves_latch] at hcond
          exact ⟨hcond.1, hkey, hcond.2, by simpa using hsat⟩
        · split at h
          · simp at h
          · simp at h
  · intro key value h
    simp only [hotkey_step] at h
    split at h
    · simp at h
    · split at h
      · simp at h
      · next hkey hsat =>
        rw [not_not] at hkey
        split at h
        · simp at h
        · split at h
          · next hcond =>
            rw [update_modifier_preserves_latch] at hcond
            exact ⟨hcond.1, hkey, hcond.2⟩
          · simp at h

/-- Witness for C7 at a concrete state and event: a `RightAlt` repeat
event (value 2) leaves the unlatched state unchanged, and a value-0
`RightAlt` event in the latched state is characterized by the
theorem's `Released` clause. -/
theorem raw_input_edge_discipline_witness :
    hotkey_step ⟨.KEY_RIGHTALT, ⟨false, false, false, false⟩⟩
        ⟨∅, ∅, ∅, ∅, false⟩ .KEY_RIGHTALT 2 = (⟨∅, ∅, ∅, ∅, false⟩, none) ∧
    ((0 : Int) = 0 ∧ Key.KEY_RIGHTALT = Key.KEY_RIGHTALT ∧
      (⟨∅, ∅, ∅, ∅, true⟩ : LoopState).is_pressed = true) := by
  have h := raw_input_edge_discipline ⟨.KEY_RIGHTALT, ⟨false, false, false, false⟩⟩
    ⟨∅, ∅, ∅, ∅, false⟩
  have h2 := raw_input_edge_discipline ⟨.KEY_RIGHTALT, ⟨false, false, false, false⟩⟩
    ⟨∅, ∅, ∅, ∅, true⟩
  obtain ⟨hstep, hupd⟩ := h.1 .KEY_RIGHTALT
  exact ⟨by rw [hstep, hupd], h2.2.2 .KEY_RIGHTALT 0 rfl⟩

/-! ### Claim theorems: paste protocol and catalog merge -/

/-- **C4.**  After the 650 ms hold, the previous clipboard is restored
only when the clipboard still equals the transcript; when it differs,
restoration is skipped (the clipboard is never overwritten); and when
the initial snapshot produced no previous contents (with the earlier
steps succeeding), the transcript is left on the clipboard and the
call fails with `ClipboardWrite`/`Unconfirmed` and
`transcript_on_clipboard = true`. -/
theorem paste_restore_protocol (env : PasteEnv) :
    ((paste_text env).restore_attempted = true → env.hold_clipboard_matches = true) ∧
    (env.hold_clipboard_matches = false → (paste_text env).restore_attempted = false) ∧
    (env.previous = none → env.set_ok = true → env.confirmed = true → env.chord_ok = true →
      (paste_text env).result = .error
        { step := .clipboardWrite,
          kind := .unconfirmed,
          message := "Previous clipboard could not be snapshotted; transcript left on clipboard.",
          transcript_on_clipboard := true } ∧
      (paste_text env).restore_attempted = false) := by
  obtain ⟨prev, sok, conf, chord, holdm, rok⟩ := env
  cases sok <;> cases conf <;> cases chord <;> cases prev <;> cases holdm <;> cases rok <;>
    simp [paste_text]

/-- Witness for C4 at a concrete environment: snapshot unavailable,
all earlier steps succeed. -/
theorem paste_restore_protocol_witness :
    (paste_text ⟨none, true, true, true, true, true⟩).result = .error
      { step := .clipboardWrite,
        kind := .unconfirmed,
        message := "Previous clipboard could not be snapshotted; transcript left on clipboard.",
        transcript_on_clipboard := true } ∧
    (paste_text ⟨none, true, true, true, true, true⟩).restore_attempted = false :=
  (paste_restore_protocol ⟨none, true, true, true, true, true⟩).2.2 rfl rfl rfl rfl

/-- **C5.**  When the built-in catalog is merged, a matching entry's
source is always updated to the built-in source; `kind`/`version` are
updated only when the existing status is `NotInstalled` or `Error`;
`Error` is demoted to `NotInstalled`; and an `Installed` or
`Downloading` entry keeps every field other than `source`
unchanged. -/
theorem register_defaults_merge_policy (existing builtin : ModelAsset) :
    (merge_builtin_asset existing builtin).source = builtin.source ∧
    (existing.status = .installed ∨ (∃ p d t, existing.status = .downloading p d t) →
      merge_builtin_asset existing builtin = { existing with source := builtin.source }) ∧
    (existing.status = .notInstalled →
      merge_builtin_asset existing builtin =
        { existing with
            source := builtin.source,
            kind := builtin.kind,
            version := builtin.version }) ∧
    (∀ msg, existing.status = .error msg →
      merge_builtin_asset existing builtin =
        { existing with
            source := builtin.source,
            kind := builtin.kind,
            version := builtin.version,
            status := .notInstalled }) := by
  have stage1 : (if existing.source.isNone ∨ existing.source ≠ builtin.source then
      { existing with source := builtin.source } else existing) =
      { existing with source := builtin.source } := by
    split
    · rfl
    · next h =>
      push_neg at h
      obtain ⟨-, h2⟩ := h
      cases existing
      simp_all
  unfold merge_builtin_asset
  rw [stage1]
  refine ⟨?_, ?_, ?_, ?_⟩
  · cases hstat : existing.status <;> simp [hstat]
  · rintro (hstat | ⟨p, d, t, hstat⟩) <;> simp [hstat]
  · intro hstat
    simp [hstat]
  · intro msg hstat
    simp [hstat]

/-- Witness for C5 at concrete assets: an `Error` entry is repaired
and demoted to `NotInstalled`. -/
theorem register_defaults_merge_policy_witness :
    merge_builtin_asset
        { kind := .unknown, name := "parakeet-v1", version := "0",
          checksum := none, size_bytes := 0, status := .error "bad",
          source := none }
        { kind := .parakeet, name := "parakeet-v1", version := "1",
          checksum := none, size_bytes := 0, status := .notInstalled,
          source := some (.hfRepo ⟨"r", none, [], []⟩) } =
      { kind := .parakeet, name := "parakeet-v1", version := "1",
        checksum := none, size_bytes := 0, status := .notInstalled,
        source := some (.hfRepo ⟨"r", none, [], []⟩) } :=
  (register_defaults_merge_policy _ _).2.2.2 "bad" rfl

/-! Field-preservation lemmas: each migration stage leaves every
field it does not assign unchanged. -/

theorem pres_p1_toggle (x : FrontendSettings) :
    (migrate_push_hotkey_default x).toggle_to_talk_hotkey = x.toggle_to_talk_hotkey := by
  unfold migrate_push_hotkey_default; split <;> rfl

theorem pres_p1_legacy (x : FrontendSettings) :
    (migrate_push_hotkey_default x).legacy_asr_backend = x.legacy_asr_backend := by
  unfold migrate_push_hotkey_default; split <;> rfl

theorem pres_p1_family (x : FrontendSettings) :
    (migrate_push_hotkey_default x).asr_family = x.asr_family := by
  unfold migrate_push_hotkey_default; split <;> rfl

theorem pres_p1_backend (x : FrontendSettings) :
    (migrate_push_hotkey_default x).whisper_backend = x.whisper_backend := by
  unfold migrate_push_hotkey_default; split <;> rfl

theorem pres_p1_model (x : FrontendSettings) :
    (migrate_push_hotkey_default x).whisper_model = x.whisper_model := by
  unfold migrate_push_hotkey_default; split <;> rfl

theorem pres_p1_language (x : FrontendSettings) :
    (migrate_push_hotkey_default x).whisper_model_language = x.whisper_model_language := by
  unfold migrate_push_hotkey_default; split <;> rfl

theorem pres_p1_precision (x : FrontendSettings) :
    (migrate_push_hotkey_default x).whisper_precision = x.whisper_precision := by
  unfold migrate_push_hotkey_default; split <;> rfl

theorem pres_p1_autoclean (x : FrontendSettings) :
    (migrate_push_hotkey_default x).autoclean_mode = x.autoclean_mode := by
  unfold migrate_push_hotkey_default; split <;> rfl

theorem pres_p2_push (x : FrontendSettings) :
    (migrate_toggle_hotkey_default x).push_to_talk_hotkey = x.push_to_talk_hotkey := by
  unfold migrate_toggle_hotkey_default; split <;> rfl

theorem pres_p2_legacy (x : FrontendSettings) :
    (migrate_toggle_hotkey_default x).legacy_asr_backend = x.legacy_asr_backend := by
  unfold migrate_toggle_hotkey_default; split <;> rfl

theorem pres_p2_family (x : FrontendSettings) :
    (migrate_toggle_hotkey_default x).asr_family = x.asr_family := by
  unfold migrate_toggle_hotkey_default; split <;> rfl

theorem pres_p2_backend (x : FrontendSettings) :
    (migrate_toggle_hotkey_default x).whisper_backend = x.whisper_backend := by
  unfold migrate_toggle_hotkey_default; split <;> rfl

theorem pres_p2_model (x : FrontendSettings) :
    (migrate_toggle_hotkey_default x).whisper_model = x.whisper_model := by
  unfold migrate_toggle_hotkey_default; split <;> rfl

theorem pres_p2_language (x : FrontendSettings) :
    (migrate_toggle_hotkey_default x).whisper_model_language = x.whisper_model_language := by
  unfold migrate_toggle_hotkey_default; split <;> rfl

theorem pres_p2_precision (x : FrontendSettings) :
    (migrate_toggle_hotkey_default x).whisper_precision = x.whisper_precision := by
  unfold migrate_toggle_hotkey_default; split <;> rfl

theorem pres_p2_autoclean (x : FrontendSettings) :
    (migrate_toggle_hotkey_default x).autoclean_mode = x.autoclean_mode := by
  unfold migrate_toggle_hotkey_default; split <;> rfl

theorem pres_p3_toggle (x : FrontendSettings) :
    (migrate_push_hotkey_legacy x).toggle_to_talk_hotkey = x.toggle_to_talk_hotkey := by
  unfold migrate_push_hotkey_legacy; split <;> rfl

theorem pres_p3_legacy (x : FrontendSettings) :
    (migrate_push_hotkey_legacy x).legacy_asr_backend = x.legacy_asr_backend := by
  unfold migrate_push_hotkey_legacy; split <;> rfl

theorem pres_p3_family (x : FrontendSettings) :
    (migrate_push_hotkey_legacy x).asr_family = x.asr_family := by
  unfold migrate_push_hotkey_legacy; split <;> rfl

theorem pres_p3_backend (x : FrontendSettings) :
    (migrate_push_hotkey_legacy x).whisper_backend = x.whisper_backend := by
  unfold migrate_push_hotkey_legacy; split <;> rfl

theorem pres_p3_model (x : FrontendSettings) :
    (migrate_push_hotkey_legacy x).whisper_model = x.whisper_model := by
  unfold migrate_push_hotkey_legacy; split <;> rfl

theorem pres_p3_language (x : FrontendSettings) :
    (migrate_push_hotkey_legacy x).whisper_model_language = x.whisper_model_language := by
  unfold migrate_push_hotkey_legacy; split <;> rfl

theorem pres_p3_precision (x : FrontendSettings) :
    (migrate_push_hotkey_legacy x).whisper_precision = x.whisper_precision := by
  unfold migrate_push_hotkey_legacy; split <;> rfl

theorem pres_p3_autoclean (x : FrontendSettings) :
    (migrate_push_hotkey_legacy x).autoclean_mode = x.autoclean_mode := by
  unfold migrate_push_hotkey_legacy; split <;> rfl

theorem pres_p4_push (x : FrontendSettings) :
    (migrate_toggle_hotkey_legacy x).push_to_talk_hotkey = x.push_to_talk_hotkey := by
  unfold migrate_toggle_hotkey_legacy; split <;> rfl

theorem pres_p4_legacy (x : FrontendSettings) :
    (migrate_toggle_hotkey_legacy x).legacy_asr_backend = x.legacy_asr_backend := by
  unfold migrate_toggle_hotkey_legacy; split <;> rfl

theorem pres_p4_family (x : FrontendSettings) :
    (migrate_toggle_hotkey_legacy x).asr_family = x.asr_family := by
  unfold migrate_toggle_hotkey_legacy; split <;> rfl

theorem pres_p4_backend (x : FrontendSettings) :
    (migrate_toggle_hotkey_legacy x).whisper_backend = x.whisper_backend := by
  unfold migrate_toggle_hotkey_legacy; split <;> rfl

theorem pres_p4_model (x : FrontendSettings) :
    (migrate_toggle_hotkey_legacy x).whisper_model = x.whisper_model := by
  unfold migrate_toggle_hotkey_legacy; split <;> rfl

theorem pres_p4_language (x : FrontendSettings) :
    (migrate_toggle_hotkey_legacy x).whisper_model_language = x.whisper_model_language := by
  unfold migrate_toggle_hotkey_legacy; split <;> rfl

theorem pres_p4_precision (x : FrontendSettings) :
    (migrate_toggle_hotkey_legacy x).whisper_precision = x.whisper_precision := by
  unfold migrate_toggle_hotkey_legacy; split <;> rfl

theorem pres_p4_autoclean (x : FrontendSettings) :
    (migrate_toggle_hotkey_legacy x).autoclean_mode = x.autoclean_mode := by
  unfold migrate_toggle_hotkey_legacy; split <;> rfl

theorem pres_fam_push (x : FrontendSettings) :
    (migrate_family_default x).push_to_talk_hotkey = x.push_to_talk_hotkey := by
  unfold migrate_family_default; split <;> rfl

theorem pres_fam_toggle (x : FrontendSettings) :
    (migrate_family_default x).toggle_to_talk_hotkey = x.toggle_to_talk_hotkey := by
  unfold migrate_family_default; split <;> rfl

theorem pres_fam_legacy (x : FrontendSettings) :
    (migrate_family_default x).legacy_asr_backend = x.legacy_asr_backend := by
  unfold migrate_family_default; split <;> rfl

theorem pres_fam_backend (x : FrontendSettings) :
    (migrate_family_default x).whisper_backend = x.whisper_backend := by
  unfold migrate_family_default; split <;> rfl

theorem pres_fam_model (x : FrontendSettings) :
    (migrate_family_default x).whisper_model = x.whisper_model := by
  unfold migrate_family_default; split <;> rfl

theorem pres_fam_language (x : FrontendSettings) :
    (migrate_family_default x).whisper_model_language = x.whisper_model_language := by
  unfold migrate_family_default; split <;> rfl

theorem pres_fam_precision (x : FrontendSettings) :
    (migrate_family_default x).whisper_precision = x.whisper_precision := by
  unfold migrate_family_default; split <;> rfl

theorem pres_fam_autoclean (x : FrontendSettings) :
    (migrate_family_default x).autoclean_mode = x.autoclean_mode := by
  unfold migrate_family_default; split <;> rfl

theorem pres_bke_push (x : FrontendSettings) :
    (migrate_backend_default x).push_to_talk_hotkey = x.push_to_talk_hotkey := by
  unfold migrate_backend_default; split <;> rfl

theorem pres_bke_toggle (x : FrontendSettings) :
    (migrate_backend_default x).toggle_to_talk_hotkey = x.toggle_to_talk_hotkey := by
  unfold migrate_backend_default; split <;> rfl

theorem pres_bke_legacy (x : FrontendSettings) :
    (migrate_backend_default x).legacy_asr_backend = x.legacy_asr_backend := by
  unfold migrate_backend_default; split <;> rfl

theorem pres_bke_family (x : FrontendSettings) :
    (migrate_backend_default x).asr_family = x.asr_family := by
  unfold migrate_backend_default; split <;> rfl

theorem pres_bke_model (x : FrontendSettings) :
    (migrate_backend_default x).whisper_model = x.whisper_model := by
  unfold migrate_backend_default; split <;> rfl

theorem pres_bke_language (x : FrontendSettings) :
    (migrate_backend_default x).whisper_model_language = x.whisper_model_language := by
  unfold migrate_backend_default; split <;> rfl

theorem pres_bke_precision (x : FrontendSettings) :
    (migrate_backend_default x).whisper_precision = x.whisper_precision := by
  unfold migrate_backend_default; split <;> rfl

theorem pres_bke_autoclean (x : FrontendSettings) :
    (migrate_backend_default x).autoclean_mode = x.autoclean_mode := by
  unfold migrate_backend_default; split <;> rfl

theorem pres_mdl_push (x : FrontendSettings) :
    (migrate_model_default x).push_to_talk_hotkey = x.push_to_talk_hotkey := by
  unfold migrate_model_default; split <;> rfl

theorem pres_mdl_toggle (x : FrontendSettings) :
    (migrate_model_default x).toggle_to_talk_hotkey = x.toggle_to_talk_hotkey := by
  unfold migrate_model_default; split <;> rfl

theorem pres_mdl_legacy (x : FrontendSettings) :
    (migrate_model_default x).legacy_asr_backend = x.legacy_asr_backend := by
  unfold migrate_model_default; split <;> rfl

theorem pres_mdl_family (x : FrontendSettings) :
    (migrate_model_default x).asr_family = x.asr_family := by
  unfold migrate_model_default; split <;> rfl

theorem pres_mdl_backend (x : FrontendSettings) :
    (migrate_model_default x).whisper_backend = x.whisper_backend := by
  unfold migrate_model_default; split <;> rfl

theorem pres_mdl_language (x : FrontendSettings) :
    (migrate_model_default x).whisper_model_language = x.whisper_model_language := by
  unfold migrate_model_default; split <;> rfl

theorem pres_mdl_precision (x : FrontendSettings) :
    (migrate_model_default x).whisper_precision = x.whisper_precision := by
  unfold migrate_model_default; split <;> rfl

theorem pres_mdl_autoclean (x : FrontendSettings) :
    (migrate_model_default x).autoclean_mode = x.autoclean_mode := by
  unfold migrate_model_default; split <;> rfl

theorem pres_lng_push (x : FrontendSettings) :
    (migrate_language_default x).push_to_talk_hotkey = x.push_to_talk_hotkey := by
  unfold migrate_language_default; split <;> rfl

theorem pres_lng_toggle (x : FrontendSettings) :
    (migrate_language_default x).toggle_to_talk_hotkey = x.toggle_to_talk_hotkey := by
  unfold migrate_language_default; split <;> rfl

theorem pres_lng_legacy (x : FrontendSettings) :
    (migrate_language_default x).legacy_asr_backend = x.legacy_asr_backend := by
  unfold migrate_language_default; split <;> rfl

theorem pres_lng_family (x : FrontendSettings) :
    (migrate_language_default x).asr_family = x.asr_family := by
  unfold migrate_language_default; split <;> rfl

theorem pres_lng_backend (x : FrontendSettings) :
    (migrate_language_default x).whisper_backend = x.whisper_backend := by
  unfold migrate_language_default; split <;> rfl

theorem pres_lng_model (x : FrontendSettings) :
    (migrate_language_default x).whisper_model = x.whisper_model := by
  unfold migrate_language_default; split <;> rfl

theorem pres_lng_precision (x : FrontendSettings) :
    (migrate_language_default x).whisper_precision = x.whisper_precision := by
  unfold migrate_language_default; split <;> rfl

theorem pres_lng_autoclean (x : FrontendSettings) :
    (migrate_language_default x).autoclean_mode = x.autoclean_mode := by
  unfold migrate_language_default; split <;> rfl

theorem pres_prc_push (x : FrontendSettings) :
    (migrate_precision_default x).push_to_talk_hotkey = x.push_to_talk_hotkey := by
  unfold migrate_precision_default; split <;> rfl

theorem pres_prc_toggle (x : FrontendSettings) :
    (migrate_precision_default x).toggle_to_talk_hotkey = x.toggle_to_talk_hotkey := by
  unfold migrate_precision_default; split <;> rfl

theorem pres_prc_legacy (x : FrontendSettings) :
    (migrate_precision_default x).legacy_asr_backend = x.legacy_asr_backend := by
  unfold migrate_precision_default; split <;> rfl

theorem pres_prc_family (x : FrontendSettings) :
    (migrate_precision_default x).asr_family = x.asr_family := by
  unfold migrate_precision_default; split <;> rfl

theorem pres_prc_backend (x : FrontendSettings) :
    (migrate_precision_default x).whisper_backend = x.whisper_backend := by
  unfold migrate_precision_default; split <;> rfl

theorem pres_prc_model (x : FrontendSettings) :
    (migrate_precision_default x).whisper_model = x.whisper_model := by
  unfold migrate_precision_default; split <;> rfl

theorem pres_prc_language (x : FrontendSettings) :
    (migrate_precision_default x).whisper_model_language = x.whisper_model_language := by
  unfold migrate_precision_default; split <;> rfl

theorem pres_prc_autoclean (x : FrontendSettings) :
    (migrate_precision_default x).autoclean_mode = x.autoclean_mode := by
  unfold migrate_precision_default; split <;> rfl

theorem pres_acl_push (x : FrontendSettings) :
    (migrate_autoclean x).push_to_talk_hotkey = x.push_to_talk_hotkey := by
  unfold migrate_autoclean; split <;> rfl

theorem pres_acl_toggle (x : FrontendSettings) :
    (migrate_autoclean x).toggle_to_talk_hotkey = x.toggle_to_talk_hotkey := by
  unfold migrate_autoclean; split <;> rfl

theorem pres_acl_legacy (x : FrontendSettings) :
    (migrate_autoclean x).legacy_asr_backend = x.legacy_asr_backend := by
  unfold migrate_autoclean; split <;> rfl

theorem pres_acl_family (x : FrontendSettings) :
    (migrate_autoclean x).asr_family = x.asr_family := by
  unfold migrate_autoclean; split <;> rfl

theorem pres_acl_backend (x : FrontendSettings) :
    (migrate_autoclean x).whisper_backend = x.whisper_backend := by
  unfold migrate_autoclean; split <;> rfl

theorem pres_acl_model (x : FrontendSettings) :
    (migrate_autoclean x).whisper_model = x.whisper_model := by
  unfold migrate_autoclean; split <;> rfl

theorem pres_acl_language (x : FrontendSettings) :
    (migrate_autoclean x).whisper_model_language = x.whisper_model_language := by
  unfold migrate_autoclean; split <;> rfl

theorem pres_acl_precision (x : FrontendSettings) :
    (migrate_autoclean x).whisper_precision = x.whisper_precision := by
  unfold migrate_autoclean; split <;> rfl

theorem pres_xl_push (x : FrontendSettings) :
    (migrate_large_lang x).push_to_talk_hotkey = x.push_to_talk_hotkey := by
  unfold migrate_large_lang; split <;> rfl

theorem pres_xl_toggle (x : FrontendSettings) :
    (migrate_large_lang x).toggle_to_talk_hotkey = x.toggle_to_talk_hotkey := by
  unfold migrate_large_lang; split <;> rfl

theorem pres_xl_legacy (x : FrontendSettings) :
    (migrate_large_lang x).legacy_asr_backend = x.legacy_asr_backend := by
  unfold migrate_large_lang; split <;> rfl

theorem pres_xl_family (x : FrontendSettings) :
    (migrate_large_lang x).asr_family = x.asr_family := by
  unfold migrate_large_lang; split <;> rfl

theorem pres_xl_backend (x : FrontendSettings) :
    (migrate_large_lang x).whisper_backend = x.whisper_backend := by
  unfold migrate_large_lang; split <;> rfl

theorem pres_xl_model (x : FrontendSettings) :
    (migrate_large_lang x).whisper_model = x.whisper_model := by
  unfold migrate_large_lang; split <;> rfl

theorem pres_xl_precision (x : FrontendSettings) :
    (migrate_large_lang x).whisper_precision = x.whisper_precision := by
  unfold migrate_large_lang; split <;> rfl

theorem pres_xl_autoclean (x : FrontendSettings) :
    (migrate_large_lang x).autoclean_mode = x.autoclean_mode := by
  unfold migrate_large_lang; split <;> rfl

theorem pres_leg_push (x : FrontendSettings) :
    (migrate_legacy_backend x).push_to_talk_hotkey = x.push_to_talk_hotkey := by
  simp only [migrate_legacy_backend]
  cases h : x.legacy_asr_backend
  · simp [h]
  · simp only [h]
    split <;> simp

theorem pres_leg_toggle (x : FrontendSettings) :
    (migrate_legacy_backend x).toggle_to_talk_hotkey = x.toggle_to_talk_hotkey := by
  simp only [migrate_legacy_backend]
  cases h : x.legacy_asr_backend
  · simp [h]
  · simp only [h]
    split <;> simp

theorem pres_leg_model (x : FrontendSettings) :
    (migrate_legacy_backend x).whisper_model = x.whisper_model := by
  simp only [migrate_legacy_backend]
  cases h : x.legacy_asr_backend
  · simp [h]
  · simp only [h]
    split <;> simp

theorem pres_leg_language (x : FrontendSettings) :
    (migrate_legacy_backend x).whisper_model_language = x.whisper_model_language := by
  simp only [migrate_legacy_backend]
  cases h : x.legacy_asr_backend
  · simp [h]
  · simp only [h]
    split <;> simp

theorem pres_leg_precision (x : FrontendSettings) :
    (migrate_legacy_backend x).whisper_precision = x.whisper_precision := by
  simp only [migrate_legacy_backend]
  cases h : x.legacy_asr_backend
  · simp [h]
  · simp only [h]
    split <;> simp

theorem pres_leg_autoclean (x : FrontendSettings) :
    (migrate_legacy_backend x).autoclean_mode = x.autoclean_mode := by
  simp only [migrate_legacy_backend]
  cases h : x.legacy_asr_backend
  · simp [h]
  · simp only [h]
    split <;> simp

theorem legacy_backend_none (x : FrontendSettings) :
    (migrate_legacy_backend x).legacy_asr_backend = none := by
  simp only [migrate_legacy_backend]
  cases h : x.legacy_asr_backend
  · simpa [h] using h
  · simp only [h]
    split <;> simp

/-! Established properties of each stage. -/

theorem prop_p1 (s : FrontendSettings) :
    (rustTrim (migrate_push_hotkey_default s).push_to_talk_hotkey.toList).isEmpty = false := by
  unfold migrate_push_hotkey_default
  split
  · show (rustTrim DEFAULT_PUSH_TO_TALK_HOTKEY.toList).isEmpty = false
    decide
  · next h => simpa using h

theorem prop_p2 (s : FrontendSettings) :
    (rustTrim (migrate_toggle_hotkey_default s).toggle_to_talk_hotkey.toList).isEmpty = false := by
  unfold migrate_toggle_hotkey_default
  split
  · show (rustTrim DEFAULT_TOGGLE_TO_TALK_HOTKEY.toList).isEmpty = false
    decide
  · next h => simpa using h

theorem prop_p3 (x : FrontendSettings)
    (h : (rustTrim x.push_to_talk_hotkey.toList).isEmpty = false) :
    (rustTrim (migrate_push_hotkey_legacy x).push_to_talk_hotkey.toList).isEmpty = false ∧
    (migrate_push_hotkey_legacy x).push_to_talk_hotkey ≠ LEGACY_LINUX_PUSH_TO_TALK := by
  unfold migrate_push_hotkey_legacy
  split
  · refine ⟨?_, ?_⟩
    · show (rustTrim DEFAULT_PUSH_TO_TALK_HOTKEY.toList).isEmpty = false
      decide
    · show DEFAULT_PUSH_TO_TALK_HOTKEY ≠ LEGACY_LINUX_PUSH_TO_TALK
      decide
  · next h2 => exact ⟨h, h2⟩

theorem prop_p4 (x : FrontendSettings)
    (h : (rustTrim x.toggle_to_talk_hotkey.toList).isEmpty = false) :
    (rustTrim (migrate_toggle_hotkey_legacy x).toggle_to_talk_hotkey.toList).isEmpty = false ∧
    (migrate_toggle_hotkey_legacy x).toggle_to_talk_hotkey ≠ LEGACY_LINUX_TOGGLE_TO_TALK := by
  unfold migrate_toggle_hotkey_legacy
  split
  · refine ⟨?_, ?_⟩
    · show (rustTrim DEFAULT_TOGGLE_TO_TALK_HOTKEY.toList).isEmpty = false
      decide
    · show DEFAULT_TOGGLE_TO_TALK_HOTKEY ≠ LEGACY_LINUX_TOGGLE_TO_TALK
      decide
  · next h2 => exact ⟨h, h2⟩

theorem prop_fam (x : FrontendSettings) :
    (migrate_family_default x).asr_family ≠ "" := by
  unfold migrate_family_default
  split
  · show ("parakeet" : String) ≠ ""
    decide
  · next h => exact h

theorem prop_bke (x : FrontendSettings) :
    (migrate_backend_default x).whisper_backend ≠ "" := by
  unfold migrate_backend_default
  split
  · show ("ct2" : String) ≠ ""
    decide
  · next h => exact h

theorem prop_mdl (x : FrontendSettings) :
    (migrate_model_default x).whisper_model ≠ "" := by
  unfold migrate_model_default
  split
  · show ("small" : String) ≠ ""
    decide
  · next h => exact h

theorem prop_lng (x : FrontendSettings) :
    (migrate_language_default x).whisper_model_language ≠ "" := by
  unfold migrate_language_default
  split
  · show ("multi" : String) ≠ ""
    decide
  · next h => exact h

theorem prop_prc (x : FrontendSettings) :
    (migrate_precision_default x).whisper_precision ≠ "" := by
  unfold migrate_precision_default
  split
  · show ("int8" : String) ≠ ""
    decide
  · next h => exact h

theorem prop_acl (x : FrontendSettings) :
    (migrate_autoclean x).autoclean_mode ≠ "polish" := by
  unfold migrate_autoclean
  split
  · show ("fast" : String) ≠ "polish"
    decide
  · next h => exact h

theorem prop_xl_language_ne (x : FrontendSettings)
    (h : x.whisper_model_language ≠ "") :
    (migrate_large_lang x).whisper_model_language ≠ "" := by
  unfold migrate_large_lang
  split
  · show ("multi" : String) ≠ ""
    decide
  · exact h

theorem large_lang_forces_multi (x : FrontendSettings) :
    ((migrate_large_lang x).whisper_model = "large-v3" ∨
      (migrate_large_lang x).whisper_model = "large-v3-turbo") →
    (migrate_large_lang x).whisper_model_language = "multi" := by
  unfold migrate_large_lang
  split
  · intro _
    rfl
  · next h =>
    intro hbig
    exact absurd hbig h

/-! Fixed-point lemmas: a stage whose condition fails is the
identity. -/

theorem fixed_p1 (s : FrontendSettings)
    (h : (rustTrim s.push_to_talk_hotkey.toList).isEmpty = false) :
    migrate_push_hotkey_default s = s := by
  unfold migrate_push_hotkey_default
  rw [if_neg (by simpa using h)]

theorem fixed_p2 (s : FrontendSettings)
    (h : (rustTrim s.toggle_to_talk_hotkey.toList).isEmpty = false) :
    migrate_toggle_hotkey_default s = s := by
  unfold migrate_toggle_hotkey_default
  rw [if_neg (by simpa using h)]

theorem fixed_p3 (s : FrontendSettings)
    (h : s.push_to_talk_hotkey ≠ LEGACY_LINUX_PUSH_TO_TALK) :
    migrate_push_hotkey_legacy s = s := by
  unfold migrate_push_hotkey_legacy
  rw [if_neg h]

theorem fixed_p4 (s : FrontendSettings)
    (h : s.toggle_to_talk_hotkey ≠ LEGACY_LINUX_TOGGLE_TO_TALK) :
    migrate_toggle_hotkey_legacy s = s := by
  unfold migrate_toggle_hotkey_legacy
  rw [if_neg h]

theorem fixed_leg (s : FrontendSettings) (h : s.legacy_asr_backend = none) :
    migrate_legacy_backend s = s := by
  simp only [migrate_legacy_backend, h]

theorem fixed_fam (s : FrontendSettings) (h : s.asr_family ≠ "") :
    migrate_family_default s = s := by
  unfold migrate_family_default
  rw [if_neg h]

theorem fixed_bke (s : FrontendSettings) (h : s.whisper_backend ≠ "") :
    migrate_backend_default s = s := by
  unfold migrate_backend_default
  rw [if_neg h]

theorem fixed_mdl (s : FrontendSettings) (h : s.whisper_model ≠ "") :
    migrate_model_default s = s := by
  unfold migrate_model_default
  rw [if_neg h]

theorem fixed_lng (s : FrontendSettings) (h : s.whisper_model_language ≠ "") :
    migrate_language_default s = s := by
  unfold migrate_language_default
  rw [if_neg h]

theorem fixed_prc (s : FrontendSettings) (h : s.whisper_precision ≠ "") :
    migrate_precision_default s = s := by
  unfold migrate_precision_default
  rw [if_neg h]

theorem fixed_acl (s : FrontendSettings) (h : s.autoclean_mode ≠ "polish") :
    migrate_autoclean s = s := by
  unfold migrate_autoclean
  rw [if_neg h]

theorem fixed_xl (s : FrontendSettings)
    (h : (s.whisper_model = "large-v3" ∨ s.whisper_model = "large-v3-turbo") →
      s.whisper_model_language = "multi") :
    migrate_large_lang s = s := by
  unfold migrate_large_lang
  split
  · next hbig =>
    have hml := h hbig
    obtain ⟨hm, p, t, hud, sh, fam, wb, wm, wml, wp, ps, lang, adl, am, dt, adi, vs, leg⟩ := s
    simp only at hml
    subst hml
    rfl
  · rfl

/-- `SettingsFixed` holds of every migrated value. -/
theorem migrate_fixed (s : FrontendSettings) :
    SettingsFixed (migrate_frontend_settings s) := by
  unfold SettingsFixed migrate_frontend_settings
  refine ⟨?_, ?_, ?_, ?_, ?_, ?_, ?_, ?_, ?_, ?_, ?_, large_lang_forces_multi _⟩
  · rw [pres_xl_push, pres_acl_push, pres_prc_push, pres_lng_push, pres_mdl_push,
      pres_bke_push, pres_fam_push, pres_leg_push, pres_p4_push]
    exact (prop_p3 _ (by rw [pres_p2_push]; exact prop_p1 s)).1
  · rw [pres_xl_toggle, pres_acl_toggle, pres_prc_toggle, pres_lng_toggle, pres_mdl_toggle,
      pres_bke_toggle, pres_fam_toggle, pres_leg_toggle]
    exact (prop_p4 _ (by rw [pres_p3_toggle]; exact prop_p2 _)).1
  · rw [pres_xl_push, pres_acl_push, pres_prc_push, pres_lng_push, pres_mdl_push,
      pres_bke_push, pres_fam_push, pres_leg_push, pres_p4_push]
    exact (prop_p3 _ (by rw [pres_p2_push]; exact prop_p1 s)).2
  · rw [pres_xl_toggle, pres_acl_toggle, pres_prc_toggle, pres_lng_toggle, pres_mdl_toggle,
      pres_bke_toggle, pres_fam_toggle, pres_leg_toggle]
    exact (prop_p4 _ (by rw [pres_p3_toggle]; exact prop_p2 _)).2
  · rw [pres_xl_legacy, pres_acl_legacy, pres_prc_legacy, pres_lng_legacy, pres_mdl_legacy,
      pres_bke_legacy, pres_fam_legacy]
    exact legacy_backend_none _
  · rw [pres_xl_family, pres_acl_family, pres_prc_family, pres_lng_family, pres_mdl_family,
      pres_bke_family]
    exact prop_fam _
  · rw [pres_xl_backend, pres_acl_backend, pres_prc_backend, pres_lng_backend, pres_mdl_backend]
    exact prop_bke _
  · rw [pres_xl_model, pres_acl_model, pres_prc_model, pres_lng_model]
    exact prop_mdl _
  · exact prop_xl_language_ne _ (by rw [pres_acl_language, pres_prc_language]; exact prop_lng _)
  · rw [pres_xl_precision, pres_acl_precision]
    exact prop_prc _
  · rw [pres_xl_autoclean]
    exact prop_acl _

/-- A `SettingsFixed` value is a fixed point of the migration. -/
theorem migrate_of_fixed (s : FrontendSettings) (h : SettingsFixed s) :
    migrate_frontend_settings s = s := by
  obtain ⟨h1, h2, h3, h4, h5, h6, h7, h8, h9, h10, h11, h12⟩ := h
  unfold migrate_frontend_settings
  rw [fixed_p1 s h1, fixed_p2 s h2, fixed_p3 s h3, fixed_p4 s h4, fixed_leg s h5,
    fixed_fam s h6, fixed_bke s h7, fixed_mdl s h8, fixed_lng s h9, fixed_prc s h10,
    fixed_acl s h11, fixed_xl s h12]

theorem parse_persist_roundtrip (x : FrontendSettings) :
    parse_frontend (persist_frontend x) = { x with legacy_asr_backend := none } := rfl

theorem with_legacy_none_eq (x : FrontendSettings) (h : x.legacy_asr_backend = none) :
    { x with legacy_asr_backend := none } = x := by
  obtain ⟨hm, p, t, hud, sh, fam, wb, wm, wml, wp, ps, lang, adl, am, dt, adi, vs, leg⟩ := x
  simp only at h
  subst h
  rfl

/-- **C9.**  The settings migration is idempotent — a second
`migrate_frontend_settings` pass is the identity on the output of the
first — and persisting a migrated value (serde drops the
`skip_serializing` legacy field) and parsing it back (serde defaults
the absent field to `None`) reproduces it exactly, so
load → migrate → persist → re-load reaches a fixed point after the
first migration. -/
theorem settings_migration_fixed_point (s : FrontendSettings) :
    migrate_frontend_settings (migrate_frontend_settings s) = migrate_frontend_settings s ∧
    parse_frontend (persist_frontend (migrate_frontend_settings s)) =
      migrate_frontend_settings s := by
  constructor
  · exact migrate_of_fixed _ (migrate_fixed s)
  · rw [parse_persist_roundtrip]
    exact with_legacy_none_eq _ ((migrate_fixed s).2.2.2.2.1)
